import Mathlib

/-!
Verification development for the query/parameter serialization core of a
Solr HTTP client library (Lucene escaper, date normalizer, flat-parameter
query builder, structured-body query builder, collection admin builder).

Strings are modelled as Lean `String`/`List Char`; JavaScript numbers that
the builders interpolate are modelled as `Int` (the library only renders
them with template interpolation, and all spec-relevant values are
integers); JavaScript `Date` objects are modelled by their millisecond
timestamp, with `none` standing for an invalid date (`NaN` time value).
-/

/-! ## Lucene escaper (`src/utils.ts`, `escapeLuceneChars`)

The source applies three sequential global replaces to the input string:
`/([+\-!(){}[\]^"~*?:\\/])/g → '\\$1'`, then `/&&/g → '\\&\\&'`, then
`/\|\|/g → '\\|\\|'`.  A global regex replace scans left to right and
restarts after each match, which the recursive definitions below mirror.
-/

/-- The reserved character class of the first replace in `escapeLuceneChars`. -/
def luceneSpecialChars : List Char :=
  ['+', '-', '!', '(', ')', '\x7b', '\x7d', '[', ']', '^', '"', '~', '*', '?', ':', '\\', '/']

/-- Membership in the reserved character class. -/
def isLuceneSpecial (c : Char) : Bool :=
  luceneSpecialChars.contains c

/-- First pass of `escapeLuceneChars`: prefix every reserved character with a
backslash (the global replace of a one-character class is character-wise). -/
def escapeSpecialChars : List Char → List Char
  | [] => []
  | c :: rest =>
    if isLuceneSpecial c then '\\' :: c :: escapeSpecialChars rest
    else c :: escapeSpecialChars rest

/-- Second pass of `escapeLuceneChars`: the global replace of `&&` by `\&\&`,
scanning left to right over non-overlapping occurrences. -/
def escapeAndOperator : List Char → List Char
  | [] => []
  | [c] => [c]
  | c :: d :: rest =>
    if c = '&' ∧ d = '&' then '\\' :: '&' :: '\\' :: '&' :: escapeAndOperator rest
    else c :: escapeAndOperator (d :: rest)

/-- Third pass of `escapeLuceneChars`: the global replace of `||` by `\|\|`. -/
def escapeOrOperator : List Char → List Char
  | [] => []
  | [c] => [c]
  | c :: d :: rest =>
    if c = '|' ∧ d = '|' then '\\' :: '|' :: '\\' :: '|' :: escapeOrOperator rest
    else c :: escapeOrOperator (d :: rest)

/-- `escapeLuceneChars` on an actual string: the three replaces in source order. -/
def escapeLuceneChars (s : String) : String :=
  String.mk (escapeOrOperator (escapeAndOperator (escapeSpecialChars s.data)))

/-- Single-scan rendering of the escaping contract as the spec words it: every
reserved character gets a backslash prefix, and the two-character sequences
`&&` and `||` become `\&\&` and `\|\|`. -/
def luceneEscapeSpec : List Char → List Char
  | [] => []
  | [c] => if isLuceneSpecial c then ['\\', c] else [c]
  | c :: d :: rest =>
    if c = '&' ∧ d = '&' then '\\' :: '&' :: '\\' :: '&' :: luceneEscapeSpec rest
    else if c = '|' ∧ d = '|' then '\\' :: '|' :: '\\' :: '|' :: luceneEscapeSpec rest
    else (if isLuceneSpecial c then ['\\', c] else [c]) ++ luceneEscapeSpec (d :: rest)

/-- A character whose escaped form is backslash-prefixed: the reserved set
plus the operator characters `&` and `|`. -/
def isLuceneEscapable (c : Char) : Bool :=
  isLuceneSpecial c || c = '&' || c = '|'

/-- Modelled from the spec: the un-escape direction of the round-trip property,
"removing all backslashes introduced by escaping": a backslash directly before
an escapable character is dropped. -/
def unescapeLucene : List Char → List Char
  | [] => []
  | [c] => [c]
  | c :: d :: rest =>
    if c = '\\' ∧ isLuceneEscapable d then d :: unescapeLucene rest
    else c :: unescapeLucene (d :: rest)

example : escapeLuceneChars "a:b" = "a\\:b" := by decide
example : escapeLuceneChars "x&&y" = "x\\&\\&y" := by decide
example : escapeLuceneChars "\\" = "\\\\" := by decide
example : unescapeLucene (escapeLuceneChars "(a||b)").data = "(a||b)".data := by decide

@[simp] theorem isLuceneSpecial_amp : isLuceneSpecial '&' = false := by decide

@[simp] theorem isLuceneSpecial_pipe : isLuceneSpecial '|' = false := by decide

@[simp] theorem isLuceneSpecial_backslash : isLuceneSpecial '\\' = true := by decide

theorem escapeAndOperator_cons₂ (c d : Char) (t : List Char) (h : ¬(c = '&' ∧ d = '&')) :
    escapeAndOperator (c :: d :: t) = c :: escapeAndOperator (d :: t) := by
  simp only [escapeAndOperator, if_neg h]

theorem escapeAndOperator_cons_ne (c : Char) (t : List Char) (h : c ≠ '&') :
    escapeAndOperator (c :: t) = c :: escapeAndOperator t := by
  cases t with
  | nil => rfl
  | cons d r => exact escapeAndOperator_cons₂ c d r (fun hcd => h hcd.1)

theorem escapeOrOperator_cons₂ (c d : Char) (t : List Char) (h : ¬(c = '|' ∧ d = '|')) :
    escapeOrOperator (c :: d :: t) = c :: escapeOrOperator (d :: t) := by
  simp only [escapeOrOperator, if_neg h]

theorem escapeOrOperator_cons_ne (c : Char) (t : List Char) (h : c ≠ '|') :
    escapeOrOperator (c :: t) = c :: escapeOrOperator t := by
  cases t with
  | nil => rfl
  | cons d r => exact escapeOrOperator_cons₂ c d r (fun hcd => h hcd.1)

theorem escapeAndOperator_head_ne_pipe (c : Char) (t : List Char) (h : c ≠ '|') :
    ∃ c' t', escapeAndOperator (c :: t) = c' :: t' ∧ c' ≠ '|' := by
  cases t with
  | nil => exact ⟨c, [], rfl, h⟩
  | cons d r =>
    by_cases hcd : c = '&' ∧ d = '&'
    · obtain ⟨rfl, rfl⟩ := hcd
      exact ⟨'\\', '&' :: '\\' :: '&' :: escapeAndOperator r, by simp [escapeAndOperator],
        by decide⟩
    · exact ⟨c, _, escapeAndOperator_cons₂ c d r hcd, h⟩

/-- The three sequential replaces of `escapeLuceneChars` compute the single
simultaneous escaping transformation described by the spec. -/
theorem escape_passes_eq_spec (l : List Char) :
    escapeOrOperator (escapeAndOperator (escapeSpecialChars l)) = luceneEscapeSpec l := by
  induction l using luceneEscapeSpec.induct with
  | case1 => rfl
  | case2 c h =>
    rw [show escapeSpecialChars [c] = ['\\', c] by simp [escapeSpecialChars, h]]
    rw [show (['\\', c] : List Char) = '\\' :: c :: [] from rfl]
    rw [escapeAndOperator_cons₂ _ _ _ (fun hh => absurd hh.1 (by decide))]
    rw [show escapeAndOperator [c] = [c] from rfl]
    rw [escapeOrOperator_cons₂ _ _ _ (fun hh => absurd hh.1 (by decide))]
    rw [show escapeOrOperator [c] = [c] from rfl]
    simp [luceneEscapeSpec, h]
  | case3 c h =>
    rw [show escapeSpecialChars [c] = [c] by simp [escapeSpecialChars, h]]
    rw [show escapeAndOperator [c] = [c] from rfl, show escapeOrOperator [c] = [c] from rfl]
    simp [luceneEscapeSpec, h]
  | case4 c d rest h ih =>
    obtain ⟨rfl, rfl⟩ := h
    rw [show escapeSpecialChars ('&' :: '&' :: rest) = '&' :: '&' :: escapeSpecialChars rest by
      simp [escapeSpecialChars]]
    rw [show escapeAndOperator ('&' :: '&' :: escapeSpecialChars rest)
        = '\\' :: '&' :: '\\' :: '&' :: escapeAndOperator (escapeSpecialChars rest) by
      simp [escapeAndOperator]]
    rw [escapeOrOperator_cons_ne _ _ (by decide), escapeOrOperator_cons_ne _ _ (by decide),
      escapeOrOperator_cons_ne _ _ (by decide), escapeOrOperator_cons_ne _ _ (by decide), ih]
    simp [luceneEscapeSpec]
  | case5 c d rest hcd h ih =>
    obtain ⟨rfl, rfl⟩ := h
    rw [show escapeSpecialChars ('|' :: '|' :: rest) = '|' :: '|' :: escapeSpecialChars rest by
      simp [escapeSpecialChars]]
    rw [escapeAndOperator_cons_ne _ _ (by decide), escapeAndOperator_cons_ne _ _ (by decide)]
    rw [show escapeOrOperator ('|' :: '|' :: escapeAndOperator (escapeSpecialChars rest))
        = '\\' :: '|' :: '\\' :: '|' :: escapeOrOperator (escapeAndOperator (escapeSpecialChars rest)) by
      simp [escapeOrOperator]]
    rw [ih]
    simp [luceneEscapeSpec, hcd]
  | case6 c d rest hcd hpd ih =>
    have hspec : luceneEscapeSpec (c :: d :: rest)
        = (if isLuceneSpecial c then ['\\', c] else [c]) ++ luceneEscapeSpec (d :: rest) := by
      simp only [luceneEscapeSpec, if_neg hcd, if_neg hpd]
    rw [hspec]
    by_cases h : isLuceneSpecial c
    · have hc : c ≠ '&' := fun hc => by subst hc; simp [isLuceneSpecial_amp] at h
      have hp : c ≠ '|' := fun hp => by subst hp; simp [isLuceneSpecial_pipe] at h
      rw [show escapeSpecialChars (c :: d :: rest) = '\\' :: c :: escapeSpecialChars (d :: rest) by
        simp [escapeSpecialChars, h]]
      rw [escapeAndOperator_cons_ne _ _ (by decide), escapeAndOperator_cons_ne _ _ hc]
      rw [escapeOrOperator_cons_ne _ _ (by decide), escapeOrOperator_cons_ne _ _ hp, ih]
      rw [if_pos h]
      rfl
    · rw [show escapeSpecialChars (c :: d :: rest) = c :: escapeSpecialChars (d :: rest) by
        simp [escapeSpecialChars, h]]
      rw [if_neg h]
      have hnil : escapeSpecialChars (d :: rest) ≠ [] := by
        by_cases hds : isLuceneSpecial d <;> simp [escapeSpecialChars, hds]
      by_cases hc : c = '&'
      · subst hc
        have hd : d ≠ '&' := fun hd => hcd ⟨rfl, hd⟩
        cases hx : escapeSpecialChars (d :: rest) with
        | nil => exact absurd hx hnil
        | cons x xs =>
          have hxne : x ≠ '&' := by
            by_cases hds : isLuceneSpecial d
            · rw [show escapeSpecialChars (d :: rest) = '\\' :: d :: escapeSpecialChars rest by
                simp [escapeSpecialChars, hds]] at hx
              injection hx with h1 h2
              subst h1
              decide
            · rw [show escapeSpecialChars (d :: rest) = d :: escapeSpecialChars rest by
                simp [escapeSpecialChars, hds]] at hx
              injection hx with h1 h2
              subst h1
              exact hd
          rw [hx] at ih
          rw [escapeAndOperator_cons₂ _ _ _ (fun hh => hxne hh.2)]
          rw [escapeOrOperator_cons_ne _ _ (by decide), ih]
          rfl
      · by_cases hp : c = '|'
        · subst hp
          have hd : d ≠ '|' := fun hd => hpd ⟨rfl, hd⟩
          rw [escapeAndOperator_cons_ne _ _ (by decide)]
          cases hx : escapeSpecialChars (d :: rest) with
          | nil => exact absurd hx hnil
          | cons x xs =>
            have hxne : x ≠ '|' := by
              by_cases hds : isLuceneSpecial d
              · rw [show escapeSpecialChars (d :: rest) = '\\' :: d :: escapeSpecialChars rest by
                  simp [escapeSpecialChars, hds]] at hx
                injection hx with h1 h2
                subst h1
                decide
              · rw [show escapeSpecialChars (d :: rest) = d :: escapeSpecialChars rest by
                  simp [escapeSpecialChars, hds]] at hx
                injection hx with h1 h2
                subst h1
                exact hd
            rw [hx] at ih
            obtain ⟨c2, t2, heq, hcp⟩ := escapeAndOperator_head_ne_pipe x xs hxne
            rw [heq, escapeOrOperator_cons₂ _ _ _ (fun hh => hcp hh.2), ← heq, ih]
            rfl
        · rw [escapeAndOperator_cons_ne _ _ hc, escapeOrOperator_cons_ne _ _ hp, ih]
          rfl

theorem luceneEscapeSpec_ne_nil (c : Char) (t : List Char) : luceneEscapeSpec (c :: t) ≠ [] := by
  cases t with
  | nil => by_cases h : isLuceneSpecial c <;> simp [luceneEscapeSpec, h]
  | cons d r =>
    by_cases h1 : c = '&' ∧ d = '&'
    · simp [luceneEscapeSpec, h1]
    · by_cases h2 : c = '|' ∧ d = '|' <;> by_cases h3 : isLuceneSpecial c <;>
        simp [luceneEscapeSpec, h1, h2, h3]

theorem unescapeLucene_cons₂ (c d : Char) (t : List Char)
    (h : ¬(c = '\\' ∧ isLuceneEscapable d)) :
    unescapeLucene (c :: d :: t) = c :: unescapeLucene (d :: t) := by
  simp only [unescapeLucene, if_neg h]

theorem unescapeLucene_esc (d : Char) (t : List Char) (h : isLuceneEscapable d) :
    unescapeLucene ('\\' :: d :: t) = d :: unescapeLucene t := by
  simp [unescapeLucene, h]

/-- Removing the backslashes that escaping introduced recovers the input. -/
theorem unescape_spec_roundtrip (l : List Char) :
    unescapeLucene (luceneEscapeSpec l) = l := by
  induction l using luceneEscapeSpec.induct with
  | case1 => rfl
  | case2 c h =>
    rw [show luceneEscapeSpec [c] = ['\\', c] by simp [luceneEscapeSpec, h]]
    rw [unescapeLucene_esc c [] (by simp [isLuceneEscapable, h])]
    rfl
  | case3 c h =>
    rw [show luceneEscapeSpec [c] = [c] by simp [luceneEscapeSpec, h]]
    rfl
  | case4 c d rest h ih =>
    obtain ⟨rfl, rfl⟩ := h
    rw [show luceneEscapeSpec ('&' :: '&' :: rest)
        = '\\' :: '&' :: '\\' :: '&' :: luceneEscapeSpec rest by simp [luceneEscapeSpec]]
    rw [unescapeLucene_esc '&' _ (by decide), unescapeLucene_esc '&' _ (by decide), ih]
  | case5 c d rest hcd h ih =>
    obtain ⟨rfl, rfl⟩ := h
    rw [show luceneEscapeSpec ('|' :: '|' :: rest)
        = '\\' :: '|' :: '\\' :: '|' :: luceneEscapeSpec rest by
      simp [luceneEscapeSpec, hcd]]
    rw [unescapeLucene_esc '|' _ (by decide), unescapeLucene_esc '|' _ (by decide), ih]
  | case6 c d rest hcd hpd ih =>
    have hspec : luceneEscapeSpec (c :: d :: rest)
        = (if isLuceneSpecial c then ['\\', c] else [c]) ++ luceneEscapeSpec (d :: rest) := by
      simp only [luceneEscapeSpec, if_neg hcd, if_neg hpd]
    rw [hspec]
    by_cases h : isLuceneSpecial c
    · rw [if_pos h]
      cases hx : luceneEscapeSpec (d :: rest) with
      | nil => exact absurd hx (luceneEscapeSpec_ne_nil d rest)
      | cons x xs =>
        rw [show (['\\', c] ++ (x :: xs) : List Char) = '\\' :: c :: x :: xs from rfl]
        rw [unescapeLucene_esc c _ (by simp [isLuceneEscapable, h]), ← hx, ih]
    · rw [if_neg h]
      have hbs : c ≠ '\\' := fun hbs => by subst hbs; simp [isLuceneSpecial_backslash] at h
      cases hx : luceneEscapeSpec (d :: rest) with
      | nil => exact absurd hx (luceneEscapeSpec_ne_nil d rest)
      | cons x xs =>
        rw [show ([c] ++ (x :: xs) : List Char) = c :: x :: xs from rfl]
        rw [unescapeLucene_cons₂ c x xs (fun hh => hbs hh.1), ← hx, ih]

/-! ## Date rendering (`Date.prototype.toISOString`)

The host environment's `toISOString` produces `YYYY-MM-DDTHH:mm:ss.sssZ` in
UTC from the date's millisecond timestamp (with the expanded `±YYYYYY` year
form outside 0000–9999).  It is modelled here by the standard civil-calendar
conversion on the floor-divided day number.
-/

/-- Left-pad the absolute value of `n` with zeros to `w` digits. -/
def padNum (w : Nat) (n : Int) : String :=
  let s := toString n.natAbs
  String.mk (List.replicate (w - s.length) '0') ++ s

/-- Gregorian year/month/day of a day number counted from 1970-01-01. -/
def civilFromDays (z0 : Int) : Int × Int × Int :=
  let z := z0 + 719468
  let era := Int.fdiv z 146097
  let doe := z - era * 146097
  let yoe := Int.fdiv (doe - Int.fdiv doe 1460 + Int.fdiv doe 36524 - Int.fdiv doe 146096) 365
  let doy := doe - (365 * yoe + Int.fdiv yoe 4 - Int.fdiv yoe 100)
  let mp := Int.fdiv (5 * doy + 2) 153
  let d := doy - Int.fdiv (153 * mp + 2) 5 + 1
  let m := mp + (if mp < 10 then 3 else -9)
  (yoe + era * 400 + (if m ≤ 2 then 1 else 0), m, d)

/-- The year component as `toISOString` prints it. -/
def isoYearString (y : Int) : String :=
  if 0 ≤ y ∧ y ≤ 9999 then padNum 4 y
  else (if y < 0 then "-" else "+") ++ padNum 6 y

/-- UTC ISO-8601 rendering of a millisecond timestamp. -/
def toISOString (t : Int) : String :=
  let days := Int.fdiv t 86400000
  let ms := Int.fmod t 86400000
  let ymd := civilFromDays days
  isoYearString ymd.1 ++ "-" ++ padNum 2 ymd.2.1 ++ "-" ++ padNum 2 ymd.2.2 ++ "T"
    ++ padNum 2 (Int.fdiv ms 3600000) ++ ":" ++ padNum 2 (Int.fdiv (Int.fmod ms 3600000) 60000)
    ++ ":" ++ padNum 2 (Int.fdiv (Int.fmod ms 60000) 1000) ++ "." ++ padNum 3 (Int.fmod ms 1000)
    ++ "Z"

example : toISOString 0 = "1970-01-01T00:00:00.000Z" := by decide
example : toISOString 1700000000000 = "2023-11-14T22:13:20.000Z" := by decide
example : toISOString (-1) = "1969-12-31T23:59:59.999Z" := by decide

/-! ## Date normalizer (`src/utils.ts`, `convertDatesToISO` / `formatDateToISO`)

`convertDatesToISO` dispatches on the runtime shape of its argument: arrays
are mapped element-wise, non-`Date` objects are copied key by key with the
values converted recursively, `Date` instances go through `formatDateToISO`
(ISO string when the time value is a number, `null` when it is `NaN`), and
every other value is returned unchanged.  JavaScript values are modelled by
the mutual inductive below; a `Date` carries `some timestamp` when valid and
`none` when invalid.
-/

mutual
/-- A JavaScript value as the serialization core manipulates it. -/
inductive JsValue where
  | str : String → JsValue
  | num : Int → JsValue
  | bool : Bool → JsValue
  | null : JsValue
  | undefined : JsValue
  | date : Option Int → JsValue
  | arr : JsArray → JsValue
  | obj : JsObject → JsValue

/-- A JavaScript array of `JsValue`s. -/
inductive JsArray where
  | nil : JsArray
  | cons : JsValue → JsArray → JsArray

/-- A JavaScript plain object: an insertion-ordered key/value sequence. -/
inductive JsObject where
  | nil : JsObject
  | cons : String → JsValue → JsObject → JsObject
end

/-- `formatDateToISO`: ISO string of a valid date, `null` for an invalid one. -/
def formatDateToISO (t : Option Int) : JsValue :=
  match t with
  | some ts => JsValue.str (toISOString ts)
  | none => JsValue.null

mutual
/-- `convertDatesToISO` on a value: the source checks `Array.isArray` first,
then plain objects (excluding `Date`), then `Date`, and otherwise returns the
input unchanged. -/
def convertDatesToISO : JsValue → JsValue
  | .arr xs => .arr (convertDatesArray xs)
  | .obj kvs => .obj (convertDatesObject kvs)
  | .date t => formatDateToISO t
  | .str s => .str s
  | .num n => .num n
  | .bool b => .bool b
  | .null => .null
  | .undefined => .undefined

/-- `input.map(convertDatesToISO)` over an array. -/
def convertDatesArray : JsArray → JsArray
  | .nil => .nil
  | .cons v rest => .cons (convertDatesToISO v) (convertDatesArray rest)

/-- The `Object.entries` copy loop: same keys, recursively converted values. -/
def convertDatesObject : JsObject → JsObject
  | .nil => .nil
  | .cons k v rest => .cons k (convertDatesToISO v) (convertDatesObject rest)
end

/-- Element-wise map over a modelled JavaScript array. -/
def JsArray.map (f : JsValue → JsValue) : JsArray → JsArray
  | .nil => .nil
  | .cons v rest => .cons (f v) (JsArray.map f rest)

/-- The key sequence of a modelled JavaScript object. -/
def JsObject.keys : JsObject → List String
  | .nil => []
  | .cons k _ rest => k :: JsObject.keys rest

theorem convertDatesArray_eq_map : (xs : JsArray) →
    convertDatesArray xs = JsArray.map convertDatesToISO xs
  | .nil => rfl
  | .cons v rest => by
    rw [convertDatesArray, JsArray.map, convertDatesArray_eq_map rest]

theorem convertDatesObject_keys : (o : JsObject) →
    (convertDatesObject o).keys = o.keys
  | .nil => rfl
  | .cons k v rest => by
    rw [convertDatesObject, JsObject.keys, JsObject.keys, convertDatesObject_keys rest]

mutual
theorem convertDatesToISO_idem : (v : JsValue) →
    convertDatesToISO (convertDatesToISO v) = convertDatesToISO v
  | .str s => by simp only [convertDatesToISO]
  | .num n => by simp only [convertDatesToISO]
  | .bool b => by simp only [convertDatesToISO]
  | .null => by simp only [convertDatesToISO]
  | .undefined => by simp only [convertDatesToISO]
  | .date t => by
    cases t with
    | some ts => simp only [convertDatesToISO, formatDateToISO]
    | none => simp only [convertDatesToISO, formatDateToISO]
  | .arr xs => by
    simp only [convertDatesToISO]
    rw [convertDatesArray_idem xs]
  | .obj kvs => by
    simp only [convertDatesToISO]
    rw [convertDatesObject_idem kvs]

theorem convertDatesArray_idem : (xs : JsArray) →
    convertDatesArray (convertDatesArray xs) = convertDatesArray xs
  | .nil => rfl
  | .cons v rest => by
    simp only [convertDatesArray]
    rw [convertDatesToISO_idem v, convertDatesArray_idem rest]

theorem convertDatesObject_idem : (o : JsObject) →
    convertDatesObject (convertDatesObject o) = convertDatesObject o
  | .nil => rfl
  | .cons k v rest => by
    simp only [convertDatesObject]
    rw [convertDatesToISO_idem v, convertDatesObject_idem rest]
end

/-- The `typeof`-guarded escaper entry point: strings are escaped, every
other value is returned as-is. -/
def escapeLuceneCharsVal : JsValue → JsValue
  | .str s => .str (escapeLuceneChars s)
  | v => v

/-! ## Percent encoding

`encodeURIComponent` leaves ASCII alphanumerics and `- _ . ! ~ * ' ( )`
intact and percent-encodes the UTF-8 bytes of every other character with
uppercase hex digits.  `URLSearchParams.toString()` uses the
`application/x-www-form-urlencoded` serializer instead: alphanumerics and
`* - . _` are kept, a space becomes `+`, and everything else is
percent-encoded.
-/

/-- Concatenating map over a list (used by the encoders below). -/
def concatMap (f : α → List β) : List α → List β
  | [] => []
  | a :: rest => f a ++ concatMap f rest

/-- Uppercase hexadecimal digit. -/
def hexUpperDigit (n : Nat) : Char :=
  if n < 10 then Char.ofNat (48 + n) else Char.ofNat (55 + n)

/-- The UTF-8 bytes of a character. -/
def utf8Bytes (c : Char) : List Nat :=
  let n := c.toNat
  if n < 128 then [n]
  else if n < 2048 then [192 + n / 64, 128 + n % 64]
  else if n < 65536 then [224 + n / 4096, 128 + (n / 64) % 64, 128 + n % 64]
  else [240 + n / 262144, 128 + (n / 4096) % 64, 128 + (n / 64) % 64, 128 + n % 64]

/-- `%XX` rendering of one byte. -/
def percentByte (b : Nat) : List Char :=
  ['%', hexUpperDigit (b / 16), hexUpperDigit (b % 16)]

/-- The non-alphanumeric characters `encodeURIComponent` leaves intact. -/
def uriUnreservedMarks : List Char :=
  ['-', '_', '.', '!', '~', '*', Char.ofNat 39, '(', ')']

/-- `encodeURIComponent`. -/
def encodeURIComponent (s : String) : String :=
  String.mk (concatMap
    (fun c =>
      if c.isAlphanum || uriUnreservedMarks.contains c then [c]
      else concatMap percentByte (utf8Bytes c))
    s.data)

/-- The non-alphanumeric characters the form-urlencoded serializer keeps. -/
def formUnreservedMarks : List Char :=
  ['*', '-', '.', '_']

/-- One character under `application/x-www-form-urlencoded` encoding. -/
def formEncodeChar (c : Char) : List Char :=
  if c.isAlphanum || formUnreservedMarks.contains c then [c]
  else if c = ' ' then ['+']
  else concatMap percentByte (utf8Bytes c)

/-- Form-urlencoded encoding of a string. -/
def formEncode (s : String) : String :=
  String.mk (concatMap formEncodeChar s.data)

/-- `new URLSearchParams(record).toString()`: `key=value` pairs joined with
`&`, both sides form-encoded, in insertion order.  The pair components stand
for the JavaScript string conversions of the caller's keys and values. -/
def serializeSearchParams (ps : List (String × String)) : String :=
  String.intercalate "&" (ps.map (fun kv => formEncode kv.1 ++ "=" ++ formEncode kv.2))

/-- JavaScript `String.prototype.replace` with a global single-character
pattern: every occurrence of `c` becomes the string `r`. -/
def jsReplaceAllChar (s : String) (c : Char) (r : String) : String :=
  String.mk (concatMap (fun x => if x = c then r.data else [x]) s.data)

/-- The flat builder's object-query rendering: serialize the record with
`URLSearchParams`, then replace `=` by `:` and `&` by ` AND `. -/
def searchParamsToQueryString (ps : List (String × String)) : String :=
  jsReplaceAllChar (jsReplaceAllChar (serializeSearchParams ps) '=' ":") '&' " AND "

/-- The flat builder's boost-field rendering: serialize the record with
`URLSearchParams`, then replace `=` by `^` and `&` by a space. -/
def searchParamsToCaretString (ps : List (String × String)) : String :=
  jsReplaceAllChar (jsReplaceAllChar (serializeSearchParams ps) '=' "^") '&' " "

example : encodeURIComponent "a b:c" = "a%20b%3Ac" := by decide
example : formEncode "a b" = "a+b" := by decide
example : searchParamsToQueryString [("name", "Ruri"), ("age", "17")]
    = "name:Ruri AND age:17" := by decide
example : searchParamsToCaretString [("title", "10"), ("body", "5")]
    = "title^10 body^5" := by decide

/-! ## Flat-parameter query builder (the `Query` class accumulating a
`parameters: string[]` list, one `key=value` fragment per push)

Every method appends pre-rendered fragments to `parameters`; `toString`
joins them with `&`.  The state is the fragment list.
-/

/-- The flat-parameter `Query` builder state. -/
structure FlatQuery where
  parameters : List String := []

/-- A freshly constructed flat `Query` (`public parameters: string[] = []`). -/
def FlatQuery.new : FlatQuery := {}

/-- `toString`: join the accumulated fragments with `&`. -/
def FlatQuery.render (q : FlatQuery) : String :=
  String.intercalate "&" q.parameters

/-- Finalization paired with the state it leaves behind: `toString` reads the
parameter list and performs no mutation. -/
def FlatQuery.finalize (q : FlatQuery) : String × FlatQuery :=
  (q.render, q)

/-- `COMPLEX_PHRASE_PREFIX` from the flat query module. -/
def complexPhraseMarker : String := "\x7b!complexphrase inOrder=true\x7d"

/-- A filter value as typed in the source: string, number, boolean or `Date`
(`some t` valid with timestamp `t`, `none` invalid). -/
inductive FilterValue where
  | s : String → FilterValue
  | n : Int → FilterValue
  | b : Bool → FilterValue
  | d : Option Int → FilterValue

/-- `convertDatesToISO(v).toString()` on one filter value.  A valid date has
become an ISO string by then; an invalid date has become `null`, on which
`.toString()` throws — modelled as `none`. -/
def formatFilterValue : FilterValue → Option String
  | .s v => some v
  | .n v => some (toString v)
  | .b v => some (if v then "true" else "false")
  | .d (some t) => some (toISOString t)
  | .d none => none

/-- `values.map((v) => convertDatesToISO(v).toString())`, propagating the
exception raised on the first invalid date. -/
def formatFilterValues : List FilterValue → Option (List String)
  | [] => some []
  | v :: rest =>
    match formatFilterValue v, formatFilterValues rest with
    | some w, some ws => some (w :: ws)
    | _, _ => none

/-- The `value` parameter of `addMatchFilter`: a single value or an array. -/
inductive MatchValue where
  | single : FilterValue → MatchValue
  | multi : List FilterValue → MatchValue

/-- `Array.isArray(value) ? value : [value]`. -/
def MatchValue.toList : MatchValue → List FilterValue
  | .single v => [v]
  | .multi vs => vs

/-- `addMatchFilter(field, value, options)`: one `fq` fragment whose value
joins a multi-element array with ` OR ` inside parentheses; the returned flag
records whether the call threw (invalid date), in which case nothing was
pushed. -/
def FlatQuery.addMatchFilter (q : FlatQuery) (field : String) (value : MatchValue)
    (complexPhrase : Bool) : FlatQuery × Bool :=
  match formatFilterValues value.toList with
  | none => (q, true)
  | some formatted =>
    let valueString :=
      if 1 < formatted.length then "(" ++ String.intercalate " OR " formatted ++ ")"
      else formatted.headD "undefined"
    let fieldRendered := if complexPhrase then complexPhraseMarker ++ field else field
    ({ parameters := q.parameters
        ++ ["fq=" ++ encodeURIComponent (fieldRendered ++ ":" ++ valueString)] },
      false)

/-- One element of the `Filters` type: field, value, match options. -/
structure FilterSpec where
  field : String
  value : MatchValue
  complexPhrase : Bool := false

/-- The `forEach` loop of `addFilters`: apply `addMatchFilter` per tuple,
stopping (with the earlier pushes kept) when a call throws. -/
def FlatQuery.addFiltersList (q : FlatQuery) : List FilterSpec → FlatQuery × Bool
  | [] => (q, false)
  | f :: rest =>
    match q.addMatchFilter f.field f.value f.complexPhrase with
    | (q2, true) => (q2, true)
    | (q2, false) => q2.addFiltersList rest

/-- `addFilters(filters)`: wrap a single tuple into a one-element array. -/
def FlatQuery.addFilters (q : FlatQuery) (filters : FilterSpec ⊕ List FilterSpec) :
    FlatQuery × Bool :=
  q.addFiltersList (match filters with | .inl f => [f] | .inr fs => fs)

/-- A `start`/`end` bound of a `DateRangeConfig`: absent, `null`, string,
number, or `Date`. -/
inductive RangeBound where
  | undefined : RangeBound
  | null : RangeBound
  | s : String → RangeBound
  | n : Int → RangeBound
  | d : Option Int → RangeBound

/-- `DateRangeConfig`: a field with optional bounds (`stop` models the source
field named `end`, a Lean keyword). -/
structure DateRangeConfig where
  field : String
  start : RangeBound := .undefined
  stop : RangeBound := .undefined

/-- The effect of `convertDatesToISO` on one bound: a valid date becomes its
ISO string, an invalid one becomes `null`, anything else is unchanged. -/
def convertRangeBound : RangeBound → RangeBound
  | .d (some t) => .s (toISOString t)
  | .d none => .null
  | b => b

/-- Template interpolation of `start ?? '*'`: nullish bounds render as `*`.
(The date cases only arise pre-normalization and mirror the normalized
rendering.) -/
def serializeRangeBound : RangeBound → String
  | .undefined => "*"
  | .null => "*"
  | .s v => v
  | .n v => toString v
  | .d (some t) => toISOString t
  | .d none => "*"

/-- `field:[start TO end]` for one normalized range. -/
def rangeFilterString (r : DateRangeConfig) : String :=
  r.field ++ ":[" ++ serializeRangeBound (convertRangeBound r.start) ++ " TO "
    ++ serializeRangeBound (convertRangeBound r.stop) ++ "]"

/-- Flat `addRangeFilter`: normalize, render each range, join the list with
` AND `, and push a single `fq` fragment. -/
def FlatQuery.addRangeFilter (q : FlatQuery)
    (dateRange : DateRangeConfig ⊕ List DateRangeConfig) : FlatQuery :=
  let filters :=
    match dateRange with
    | .inl r => [rangeFilterString r]
    | .inr rs => rs.map rangeFilterString
  { parameters := q.parameters
      ++ ["fq=" ++ encodeURIComponent (String.intercalate " AND " filters)] }

/-- The value of a join filter (the source interpolates it directly; `Date`
values would use the host's locale rendering and are outside this model). -/
inductive JoinValue where
  | s : String → JoinValue
  | n : Int → JoinValue
  | b : Bool → JoinValue

/-- Template rendering of a join value. -/
def joinValueString : JoinValue → String
  | .s v => v
  | .n v => toString v
  | .b v => if v then "true" else "false"

/-- `JoinConfig` (`source` and `target` model the source fields named `from`
and `to`, which are Lean keywords). -/
structure JoinConfig where
  source : String
  target : String
  fromIndex : String
  field : String
  value : JoinValue

/-- Flat `addJoinFilter`: one `fq` fragment with the `{!join ...}` clause. -/
def FlatQuery.addJoinFilter (q : FlatQuery) (config : JoinConfig) : FlatQuery :=
  let joinString := "\x7b!join fromIndex=" ++ config.fromIndex ++ " from=" ++ config.source
    ++ " to=" ++ config.target ++ " v=\x27" ++ config.field ++ ":" ++ joinValueString config.value
    ++ "\x27\x7d"
  { parameters := q.parameters ++ ["fq=" ++ encodeURIComponent joinString] }

/-! ### Conditional push helpers

Each helper renders the fragments one source-level `if (...) push(...)`
produces for one config field; `none` models an absent (`undefined`) field.
Truthiness of a JavaScript string is non-emptiness; of a number, being
non-zero.
-/

/-- `if (v) push(key=encodeURIComponent(v))` for an optional string field. -/
def pushTruthyStr (key : String) : Option String → List String
  | some v => if v = "" then [] else [key ++ "=" ++ encodeURIComponent v]
  | none => []

/-- `if (v !== undefined) push(key=v)` for an optional numeric field. -/
def pushDefinedNum (key : String) : Option Int → List String
  | some v => [key ++ "=" ++ toString v]
  | none => []

/-- `if (v) push(key=v)` for an optional numeric field (skips zero). -/
def pushTruthyNum (key : String) : Option Int → List String
  | some v => if v = 0 then [] else [key ++ "=" ++ toString v]
  | none => []

/-- `if (v !== undefined) push(key=v)` for an optional boolean field. -/
def pushDefinedBool (key : String) : Option Bool → List String
  | some v => [key ++ "=" ++ (if v then "true" else "false")]
  | none => []

/-- `if (v) toArray(v).forEach((x) => push(key=encodeURIComponent(x)))` for a
truthy string-or-array field: one fragment per array element. -/
def pushEachStr (key : String) : Option (String ⊕ List String) → List String
  | some (.inl v) => if v = "" then [] else [key ++ "=" ++ encodeURIComponent v]
  | some (.inr l) => l.map (fun v => key ++ "=" ++ encodeURIComponent v)
  | none => []

/-- As `pushEachStr` but for object-valued entries (always truthy when
present; the strings stand for the JavaScript string conversions of the
caller's values). -/
def pushEachVal (key : String) : Option (String ⊕ List String) → List String
  | some (.inl v) => [key ++ "=" ++ encodeURIComponent v]
  | some (.inr l) => l.map (fun v => key ++ "=" ++ encodeURIComponent v)
  | none => []

/-- `if (v) push(key=encodeURIComponent(Array.isArray(v) ? v.join(',') : v))`. -/
def pushJoinedStr (key : String) : Option (String ⊕ List String) → List String
  | some (.inl v) => if v = "" then [] else [key ++ "=" ++ encodeURIComponent v]
  | some (.inr l) => [key ++ "=" ++ encodeURIComponent (String.intercalate "," l)]
  | none => []

/-! ### Flat builder methods -/

/-- `addRawParameter(param)`. -/
def FlatQuery.addRawParameter (q : FlatQuery) (param : String) : FlatQuery :=
  { parameters := q.parameters ++ [param] }

/-- `setParserType(parserType)`. -/
def FlatQuery.setParserType (q : FlatQuery) (parserType : String) : FlatQuery :=
  { parameters := q.parameters ++ ["defType=" ++ encodeURIComponent parserType] }

/-- `setRequestHandler(handlerName)`. -/
def FlatQuery.setRequestHandler (q : FlatQuery) (handlerName : String) : FlatQuery :=
  { parameters := q.parameters ++ ["qt=" ++ encodeURIComponent handlerName] }

/-- The `query` argument of the flat `setQuery`: a string or a record. -/
inductive QueryArg where
  | str : String → QueryArg
  | obj : List (String × String) → QueryArg

/-- `setQuery(query, options)`: strings are URI-encoded; records go through
the `URLSearchParams` rendering with `:` and ` AND `; the complex-phrase
marker is URI-encoded and prepended. -/
def FlatQuery.setQuery (q : FlatQuery) (query : QueryArg) (complexPhrase : Bool) : FlatQuery :=
  let queryString :=
    match query with
    | .str s => encodeURIComponent s
    | .obj ps => searchParamsToQueryString ps
  let pre := if complexPhrase then complexPhraseMarker else ""
  { parameters := q.parameters ++ ["q=" ++ encodeURIComponent pre ++ queryString] }

/-- The `'AND' | 'OR'` union. -/
inductive QueryOperator where
  | and : QueryOperator
  | or : QueryOperator

/-- Rendering of the operator union. -/
def QueryOperator.render : QueryOperator → String
  | .and => "AND"
  | .or => "OR"

/-- `setQueryOperator(operator)`. -/
def FlatQuery.setQueryOperator (q : FlatQuery) (op : QueryOperator) : FlatQuery :=
  { parameters := q.parameters ++ ["q.op=" ++ encodeURIComponent op.render] }

/-- `setDefaultField(fieldName)`. -/
def FlatQuery.setDefaultField (q : FlatQuery) (fieldName : String) : FlatQuery :=
  { parameters := q.parameters ++ ["df=" ++ encodeURIComponent fieldName] }

/-- `setOffset(offset)`. -/
def FlatQuery.setOffset (q : FlatQuery) (offset : Int) : FlatQuery :=
  { parameters := q.parameters ++ ["start=" ++ toString offset] }

/-- `setLimit(limit)`. -/
def FlatQuery.setLimit (q : FlatQuery) (limit : Int) : FlatQuery :=
  { parameters := q.parameters ++ ["rows=" ++ toString limit] }

/-- `setCursor(cursor = '*')`. -/
def FlatQuery.setCursor (q : FlatQuery) (cursor : String) : FlatQuery :=
  { parameters := q.parameters ++ ["cursorMark=" ++ encodeURIComponent cursor] }

/-- A sort direction. -/
inductive SortDir where
  | asc : SortDir
  | desc : SortDir

/-- Rendering of a sort direction. -/
def SortDir.render : SortDir → String
  | .asc => "asc"
  | .desc => "desc"

/-- The comma-joined `field direction` list built by `setSort` from
`Object.entries(fields)` in insertion order. -/
def sortString (fields : List (String × SortDir)) : String :=
  String.intercalate "," (fields.map (fun fd => fd.1 ++ " " ++ fd.2.render))

/-- `setSort(fields)`. -/
def FlatQuery.setSort (q : FlatQuery) (fields : List (String × SortDir)) : FlatQuery :=
  { parameters := q.parameters ++ ["sort=" ++ encodeURIComponent (sortString fields)] }

/-- `setResponseFields(fields)`: arrays are comma-joined. -/
def FlatQuery.setResponseFields (q : FlatQuery) (fields : String ⊕ List String) : FlatQuery :=
  let fieldString :=
    match fields with
    | .inl s => s
    | .inr l => String.intercalate "," l
  { parameters := q.parameters ++ ["fl=" ++ encodeURIComponent fieldString] }

/-- `setTimeout(milliseconds)`. -/
def FlatQuery.setTimeout (q : FlatQuery) (milliseconds : Int) : FlatQuery :=
  { parameters := q.parameters ++ ["timeAllowed=" ++ toString milliseconds] }

/-- `GroupingConfig` (`enabled` models the source field named `on`). -/
structure GroupingConfig where
  enabled : Option Bool := none
  field : Option (String ⊕ List String) := none
  query : Option (String ⊕ List String) := none
  limit : Option Int := none
  offset : Option Int := none
  sort : Option String := none
  format : Option String := none
  main : Option Bool := none
  ngroups : Option Bool := none
  truncate : Option Bool := none
  cache : Option Int := none

/-- `setGrouping(config)`: the unconditional `group=` fragment followed by
one conditional push per recognized field, in source order. -/
def FlatQuery.setGrouping (q : FlatQuery) (config : GroupingConfig) : FlatQuery :=
  { parameters := q.parameters
      ++ (["group=" ++ (if config.enabled = some false then "false" else "true")]
        ++ pushEachStr "group.field" config.field
        ++ pushEachVal "group.query" config.query
        ++ pushDefinedNum "group.limit" config.limit
        ++ pushDefinedNum "group.offset" config.offset
        ++ pushTruthyStr "group.sort" config.sort
        ++ pushTruthyStr "group.format" config.format
        ++ pushDefinedBool "group.main" config.main
        ++ pushDefinedBool "group.ngroups" config.ngroups
        ++ pushDefinedBool "group.truncate" config.truncate
        ++ pushDefinedNum "group.cache.percent" config.cache) }

/-- `groupBy(fieldName)` delegates to `setGrouping({ field: fieldName })`. -/
def FlatQuery.groupBy (q : FlatQuery) (fieldName : String) : FlatQuery :=
  q.setGrouping { field := some (.inl fieldName) }

/-- `PivotConfig` (`fields` is an array in the source type). -/
structure PivotConfig where
  mincount : Option Int := none
  fields : List String := []

/-- `FacetConfig` (`enabled` and `prefixVal` model the source fields named `on` and the facet value-restriction key). -/
structure FacetConfig where
  enabled : Option Bool := none
  query : Option String := none
  field : Option (String ⊕ List String) := none
  prefixVal : Option String := none
  sort : Option String := none
  limit : Option Int := none
  offset : Option Int := none
  mincount : Option Int := none
  missing : Option Bool := none
  method : Option String := none
  pivot : Option PivotConfig := none

/-- `setFacets(config)`. -/
def FlatQuery.setFacets (q : FlatQuery) (config : FacetConfig) : FlatQuery :=
  { parameters := q.parameters
      ++ (["facet=" ++ (if config.enabled = some false then "false" else "true")]
        ++ pushTruthyStr "facet.query" config.query
        ++ pushEachStr "facet.field" config.field
        ++ pushTruthyStr "facet.prefix" config.prefixVal
        ++ pushTruthyStr "facet.sort" config.sort
        ++ pushDefinedNum "facet.limit" config.limit
        ++ pushDefinedNum "facet.offset" config.offset
        ++ pushDefinedNum "facet.mincount" config.mincount
        ++ pushDefinedBool "facet.missing" config.missing
        ++ pushTruthyStr "facet.method" config.method
        ++ (match config.pivot with
            | none => []
            | some p =>
              p.fields.map (fun f => "facet.pivot=" ++ encodeURIComponent f)
                ++ pushDefinedNum "facet.pivot.mincount" p.mincount)) }

/-- `MoreLikeThisConfig` (`enabled` models `on`); `qf` is a string or a record of field weights. -/
structure MoreLikeThisConfig where
  enabled : Option Bool := none
  fl : Option (String ⊕ List String) := none
  count : Option Int := none
  mintf : Option Int := none
  mindf : Option Int := none
  minwl : Option Int := none
  maxwl : Option Int := none
  maxqt : Option Int := none
  maxntp : Option Int := none
  boost : Option Bool := none
  qf : Option (String ⊕ List (String × String)) := none

/-- `setMoreLikeThis(config)`. -/
def FlatQuery.setMoreLikeThis (q : FlatQuery) (config : MoreLikeThisConfig) : FlatQuery :=
  { parameters := q.parameters
      ++ (["mlt=" ++ (if config.enabled = some false then "false" else "true")]
        ++ pushJoinedStr "mlt.fl" config.fl
        ++ pushDefinedNum "mlt.count" config.count
        ++ pushDefinedNum "mlt.mintf" config.mintf
        ++ pushDefinedNum "mlt.mindf" config.mindf
        ++ pushDefinedNum "mlt.minwl" config.minwl
        ++ pushDefinedNum "mlt.maxwl" config.maxwl
        ++ pushDefinedNum "mlt.maxqt" config.maxqt
        ++ pushDefinedNum "mlt.maxntp" config.maxntp
        ++ pushDefinedBool "mlt.boost" config.boost
        ++ (match config.qf with
            | none => []
            | some (.inl s) => if s = "" then [] else ["mlt.qf=" ++ encodeURIComponent s]
            | some (.inr ps) =>
              ["mlt.qf=" ++ encodeURIComponent (searchParamsToCaretString ps)])) }

/-- `useDisMax()`. -/
def FlatQuery.useDisMax (q : FlatQuery) : FlatQuery :=
  q.setParserType "dismax"

/-- `useExtendedDisMax()`. -/
def FlatQuery.useExtendedDisMax (q : FlatQuery) : FlatQuery :=
  q.setParserType "edismax"

/-- `enableDebug()`. -/
def FlatQuery.enableDebug (q : FlatQuery) : FlatQuery :=
  { parameters := q.parameters ++ ["debugQuery=true"] }

/-- `setQueryFields(fields)`. -/
def FlatQuery.setQueryFields (q : FlatQuery) (fields : List (String × String)) : FlatQuery :=
  { parameters := q.parameters
      ++ ["qf=" ++ encodeURIComponent (searchParamsToCaretString fields)] }

/-- `setMinimumMatch(minimumMatch)` (string or number). -/
def FlatQuery.setMinimumMatch (q : FlatQuery) (minimumMatch : String ⊕ Int) : FlatQuery :=
  let rendered :=
    match minimumMatch with
    | .inl s => s
    | .inr v => toString v
  { parameters := q.parameters ++ ["mm=" ++ encodeURIComponent rendered] }

/-- `setPhraseFields(fields)`. -/
def FlatQuery.setPhraseFields (q : FlatQuery) (fields : List (String × String)) : FlatQuery :=
  { parameters := q.parameters
      ++ ["pf=" ++ encodeURIComponent (searchParamsToCaretString fields)] }

/-- `setPhraseSlop(slop)`. -/
def FlatQuery.setPhraseSlop (q : FlatQuery) (slop : Int) : FlatQuery :=
  { parameters := q.parameters ++ ["ps=" ++ toString slop] }

/-- `setQuerySlop(slop)`. -/
def FlatQuery.setQuerySlop (q : FlatQuery) (slop : Int) : FlatQuery :=
  { parameters := q.parameters ++ ["qs=" ++ toString slop] }

/-- `setTiebreaker(tiebreaker)`. -/
def FlatQuery.setTiebreaker (q : FlatQuery) (tiebreaker : Int) : FlatQuery :=
  { parameters := q.parameters ++ ["tie=" ++ toString tiebreaker] }

/-- `setBoostQuery(boostQuery)`. -/
def FlatQuery.setBoostQuery (q : FlatQuery) (boostQuery : List (String × String)) : FlatQuery :=
  { parameters := q.parameters
      ++ ["bq=" ++ encodeURIComponent (searchParamsToCaretString boostQuery)] }

/-- `setBoostFunctions(functions)`. -/
def FlatQuery.setBoostFunctions (q : FlatQuery) (functions : String) : FlatQuery :=
  { parameters := q.parameters ++ ["bf=" ++ encodeURIComponent functions] }

/-- `setBoost(boost)`. -/
def FlatQuery.setBoost (q : FlatQuery) (boost : String) : FlatQuery :=
  { parameters := q.parameters ++ ["boost=" ++ encodeURIComponent boost] }

/-- `HighlightConfig` (`enabled` models the source field named `on`). -/
structure HighlightConfig where
  enabled : Option Bool := none
  q : Option (String ⊕ List (String × String)) := none
  qparser : Option String := none
  fl : Option (String ⊕ List String) := none
  snippets : Option Int := none
  fragsize : Option Int := none
  mergeContiguous : Option Bool := none
  maxAnalyzedChars : Option Int := none
  maxMultiValuedToExamine : Option Int := none
  maxMultiValuedToMatch : Option Int := none
  alternateField : Option String := none
  maxAlternateFieldLength : Option Int := none
  formatter : Option String := none
  simplePre : Option String := none
  simplePost : Option String := none
  fragmenter : Option String := none
  highlightMultiTerm : Option Bool := none
  requireFieldMatch : Option Bool := none
  usePhraseHighlighter : Option Bool := none
  regexSlop : Option Int := none
  regexPattern : Option String := none
  regexMaxAnalyzedChars : Option Int := none
  preserveMulti : Option Bool := none
  payloads : Option Bool := none

/-- `setHighlighting(config)`: conditional pushes in source order; the
`hl.simple.pre`/`hl.simple.post` markers are always pushed, defaulting to the
`<em>` pair; a string-valued `hl.fl` is URI-encoded twice by the source. -/
def FlatQuery.setHighlighting (q : FlatQuery) (config : HighlightConfig) : FlatQuery :=
  { parameters := q.parameters
      ++ (["hl=" ++ (if config.enabled = some false then "false" else "true")]
        ++ (match config.q with
            | none => []
            | some (.inl s) => if s = "" then [] else ["hl.q=" ++ encodeURIComponent s]
            | some (.inr ps) =>
              ["hl.q=" ++ encodeURIComponent (searchParamsToQueryString ps)])
        ++ pushTruthyStr "hl.qparser" config.qparser
        ++ (match config.fl with
            | none => []
            | some (.inl v) =>
              if v = "" then []
              else ["hl.fl=" ++ encodeURIComponent (encodeURIComponent v)]
            | some (.inr l) => ["hl.fl=" ++ encodeURIComponent (String.intercalate "," l)])
        ++ pushTruthyNum "hl.snippets" config.snippets
        ++ pushTruthyNum "hl.fragsize" config.fragsize
        ++ pushDefinedBool "hl.mergeContiguous" config.mergeContiguous
        ++ pushDefinedBool "hl.requireFieldMatch" config.requireFieldMatch
        ++ pushTruthyNum "hl.maxAnalyzedChars" config.maxAnalyzedChars
        ++ pushTruthyNum "hl.maxMultiValuedToExamine" config.maxMultiValuedToExamine
        ++ pushTruthyNum "hl.maxMultiValuedToMatch" config.maxMultiValuedToMatch
        ++ pushTruthyStr "hl.alternateField" config.alternateField
        ++ pushDefinedNum "hl.maxAlternateFieldLength" config.maxAlternateFieldLength
        ++ pushTruthyStr "hl.formatter" config.formatter
        ++ ["hl.simple.pre=" ++ encodeURIComponent (config.simplePre.getD "<em>")]
        ++ ["hl.simple.post=" ++ encodeURIComponent (config.simplePost.getD "</em>")]
        ++ pushTruthyStr "hl.fragmenter" config.fragmenter
        ++ pushDefinedBool "hl.highlightMultiTerm" config.highlightMultiTerm
        ++ pushDefinedBool "hl.usePhraseHighlighter" config.usePhraseHighlighter
        ++ pushTruthyNum "hl.regex.slop" config.regexSlop
        ++ pushTruthyStr "hl.regex.pattern" config.regexPattern
        ++ pushTruthyNum "hl.regex.maxAnalyzedChars" config.regexMaxAnalyzedChars
        ++ pushDefinedBool "hl.preserveMulti" config.preserveMulti
        ++ pushDefinedBool "hl.payloads" config.payloads) }

/-- `TermsConfig` (`enabled` models `on`; `prefixVal` models `prefix`). -/
structure TermsConfig where
  enabled : Option Bool := none
  fl : Option String := none
  lower : Option String := none
  lowerIncl : Option Bool := none
  mincount : Option Int := none
  maxcount : Option Int := none
  prefixVal : Option String := none
  regex : Option String := none
  regexFlag : Option String := none
  limit : Option Int := none
  upper : Option String := none
  upperIncl : Option Bool := none
  raw : Option Bool := none
  sort : Option String := none

/-- `setTerms(config)`. -/
def FlatQuery.setTerms (q : FlatQuery) (config : TermsConfig) : FlatQuery :=
  { parameters := q.parameters
      ++ (["terms=" ++ (if config.enabled = some false then "false" else "true")]
        ++ pushTruthyStr "terms.fl" config.fl
        ++ pushTruthyStr "terms.lower" config.lower
        ++ pushDefinedBool "terms.lower.incl" config.lowerIncl
        ++ pushTruthyNum "terms.mincount" config.mincount
        ++ pushTruthyNum "terms.maxcount" config.maxcount
        ++ pushTruthyStr "terms.prefix" config.prefixVal
        ++ pushTruthyStr "terms.regex" config.regex
        ++ pushTruthyStr "terms.regex.flag" config.regexFlag
        ++ pushTruthyNum "terms.limit" config.limit
        ++ pushTruthyStr "terms.upper" config.upper
        ++ pushDefinedBool "terms.upper.incl" config.upperIncl
        ++ pushDefinedBool "terms.raw" config.raw
        ++ pushTruthyStr "terms.sort" config.sort) }

/-! ## Admin action builder (`src/collection.ts`, class `Collection`)

Each public method pushes the unencoded `action=<TOKEN>` fragment followed by
one conditional `name=value` fragment per declared field of its config, in
source order; `toQueryString` joins the accumulated fragments with `&`.
String fields are guarded by truthiness, numeric and boolean fields by
`!== undefined`, and string-or-array fields are comma-joined before encoding
(an array is truthy even when empty).
-/

/-- The admin `Collection` builder state. -/
structure Collection where
  parameters : List String := []

/-- A freshly constructed `Collection`. -/
def Collection.new : Collection := {}

/-- `toQueryString`: join the accumulated fragments with `&`. -/
def Collection.toQueryString (c : Collection) : String :=
  String.intercalate "&" c.parameters

/-- Finalization paired with the state it leaves behind: `toQueryString`
reads the parameter list and performs no mutation. -/
def Collection.finalize (c : Collection) : String × Collection :=
  (c.toQueryString, c)

/-- `if (v) push(key=encodeURIComponent(Array.isArray(v) ? v.join(',') : v))`
for a string-or-array field: a string is truthy when non-empty, an array is
always truthy. -/
def pushJoinedList (key : String) : Option (String ⊕ List String) → List String
  | some (.inl v) => if v = "" then [] else [key ++ "=" ++ encodeURIComponent v]
  | some (.inr l) => [key ++ "=" ++ encodeURIComponent (String.intercalate "," l)]
  | none => []

/-- `CollectionCreateConfig`; every field the `create` method reads. -/
structure CollectionCreateConfig where
  name : Option String := none
  routerName : Option String := none
  numShards : Option Int := none
  shards : Option (String ⊕ List String) := none
  replicationFactor : Option Int := none
  maxShardsPerNode : Option Int := none
  createNodeSet : Option (String ⊕ List String) := none
  createNodeSetShuffle : Option Bool := none
  collectionConfigName : Option String := none
  routerField : Option String := none
  autoAddReplicas : Option Bool := none
  async : Option String := none

/-- `create(config)`. -/
def Collection.create (c : Collection) (config : CollectionCreateConfig) : Collection :=
  { parameters := c.parameters
      ++ (["action=CREATE"]
        ++ pushTruthyStr "name" config.name
        ++ pushTruthyStr "router.name" config.routerName
        ++ pushDefinedNum "numShards" config.numShards
        ++ pushJoinedList "shards" config.shards
        ++ pushDefinedNum "replicationFactor" config.replicationFactor
        ++ pushDefinedNum "maxShardsPerNode" config.maxShardsPerNode
        ++ pushJoinedList "createNodeSet" config.createNodeSet
        ++ pushDefinedBool "createNodeSet.shuffle" config.createNodeSetShuffle
        ++ pushTruthyStr "collection.configName" config.collectionConfigName
        ++ pushTruthyStr "router.field" config.routerField
        ++ pushDefinedBool "autoAddReplicas" config.autoAddReplicas
        ++ pushTruthyStr "async" config.async) }

/-- `addRawParameter(param)`. -/
def Collection.addRawParameter (c : Collection) (param : String) : Collection :=
  { parameters := c.parameters ++ [param] }

/-- `reload(name)`. -/
def Collection.reload (c : Collection) (name : String) : Collection :=
  { parameters := c.parameters ++ (["action=RELOAD"] ++ pushTruthyStr "name" (some name)) }

/-- `ShardSplitConfig`. -/
structure ShardSplitConfig where
  collection : Option String := none
  shard : Option String := none
  ranges : Option (String ⊕ List String) := none
  splitKey : Option String := none
  async : Option String := none

/-- `splitShard(config)`. -/
def Collection.splitShard (c : Collection) (config : ShardSplitConfig) : Collection :=
  { parameters := c.parameters
      ++ (["action=SPLITSHARD"]
        ++ pushTruthyStr "collection" config.collection
        ++ pushTruthyStr "shard" config.shard
        ++ pushJoinedList "ranges" config.ranges
        ++ pushTruthyStr "split.key" config.splitKey
        ++ pushTruthyStr "async" config.async) }

/-- `ShardConfig`. -/
structure ShardConfig where
  collection : Option String := none
  shard : Option String := none

/-- `createShard(config)`. -/
def Collection.createShard (c : Collection) (config : ShardConfig) : Collection :=
  { parameters := c.parameters
      ++ (["action=CREATESHARD"]
        ++ pushTruthyStr "collection" config.collection
        ++ pushTruthyStr "shard" config.shard) }

/-- `deleteShard(config)`. -/
def Collection.deleteShard (c : Collection) (config : ShardConfig) : Collection :=
  { parameters := c.parameters
      ++ (["action=DELETESHARD"]
        ++ pushTruthyStr "collection" config.collection
        ++ pushTruthyStr "shard" config.shard) }

/-- `AliasConfig`. -/
structure AliasConfig where
  name : Option String := none
  collections : Option (String ⊕ List String) := none

/-- `createAlias(config)`. -/
def Collection.createAlias (c : Collection) (config : AliasConfig) : Collection :=
  { parameters := c.parameters
      ++ (["action=CREATEALIAS"]
        ++ pushTruthyStr "name" config.name
        ++ pushJoinedList "collections" config.collections) }

/-- `deleteAlias(name)`. -/
def Collection.deleteAlias (c : Collection) (name : String) : Collection :=
  { parameters := c.parameters ++ (["action=DELETEALIAS"] ++ pushTruthyStr "name" (some name)) }

/-- `delete(name)`. -/
def Collection.deleteCollection (c : Collection) (name : String) : Collection :=
  { parameters := c.parameters ++ (["action=DELETE"] ++ pushTruthyStr "name" (some name)) }

/-- `ReplicaDeleteConfig`. -/
structure ReplicaDeleteConfig where
  collection : Option String := none
  shard : Option String := none
  replica : Option String := none
  onlyIfDown : Option Bool := none

/-- `deleteReplica(config)`. -/
def Collection.deleteReplica (c : Collection) (config : ReplicaDeleteConfig) : Collection :=
  { parameters := c.parameters
      ++ (["action=DELETEREPLICA"]
        ++ pushTruthyStr "collection" config.collection
        ++ pushTruthyStr "shard" config.shard
        ++ pushTruthyStr "replica" config.replica
        ++ pushDefinedBool "onlyIfDown" config.onlyIfDown) }

/-- `ReplicaAddConfig` (`route` is pushed under the `_route_` key). -/
structure ReplicaAddConfig where
  collection : Option String := none
  shard : Option String := none
  route : Option String := none
  node : Option String := none
  async : Option String := none

/-- `addReplica(config)`. -/
def Collection.addReplica (c : Collection) (config : ReplicaAddConfig) : Collection :=
  { parameters := c.parameters
      ++ (["action=ADDREPLICA"]
        ++ pushTruthyStr "collection" config.collection
        ++ pushTruthyStr "shard" config.shard
        ++ pushTruthyStr "_route_" config.route
        ++ pushTruthyStr "node" config.node
        ++ pushTruthyStr "async" config.async) }

/-- A `string | boolean | number` admin parameter value. -/
inductive AdminValue where
  | s : String → AdminValue
  | n : Int → AdminValue
  | b : Bool → AdminValue

/-- `String(value)` for an admin parameter value. -/
def AdminValue.render : AdminValue → String
  | .s v => v
  | .n v => toString v
  | .b v => if v then "true" else "false"

/-- `if (v !== undefined) push(key=encodeURIComponent(v))` for a
string-number-or-boolean field. -/
def pushDefinedVal (key : String) : Option AdminValue → List String
  | some v => [key ++ "=" ++ encodeURIComponent v.render]
  | none => []

/-- `ClusterPropertyConfig`. -/
structure ClusterPropertyConfig where
  name : Option String := none
  val : Option AdminValue := none

/-- `setClusterProperty(config)`. -/
def Collection.setClusterProperty (c : Collection) (config : ClusterPropertyConfig) :
    Collection :=
  { parameters := c.parameters
      ++ (["action=CLUSTERPROP"]
        ++ pushTruthyStr "name" config.name
        ++ pushDefinedVal "val" config.val) }

/-- `MigrationConfig`. -/
structure MigrationConfig where
  collection : Option String := none
  targetCollection : Option String := none
  splitKey : Option String := none
  forwardTimeout : Option Int := none
  async : Option String := none

/-- `migrateDocuments(config)`. -/
def Collection.migrateDocuments (c : Collection) (config : MigrationConfig) : Collection :=
  { parameters := c.parameters
      ++ (["action=MIGRATE"]
        ++ pushTruthyStr "collection" config.collection
        ++ pushTruthyStr "target.collection" config.targetCollection
        ++ pushTruthyStr "split.key" config.splitKey
        ++ pushDefinedNum "forward.timeout" config.forwardTimeout
        ++ pushTruthyStr "async" config.async) }

/-- `ClusterRole`. -/
structure ClusterRole where
  role : Option String := none
  node : Option String := none

/-- `addRole(config)`. -/
def Collection.addRole (c : Collection) (config : ClusterRole) : Collection :=
  { parameters := c.parameters
      ++ (["action=ADDROLE"]
        ++ pushTruthyStr "role" config.role
        ++ pushTruthyStr "node" config.node) }

/-- `removeRole(config)`. -/
def Collection.removeRole (c : Collection) (config : ClusterRole) : Collection :=
  { parameters := c.parameters
      ++ (["action=REMOVEROLE"]
        ++ pushTruthyStr "role" config.role
        ++ pushTruthyStr "node" config.node) }

/-- `getOverseerStatus()`. -/
def Collection.getOverseerStatus (c : Collection) : Collection :=
  { parameters := c.parameters ++ ["action=OVERSEERSTATUS"] }

/-- `getClusterStatus()`. -/
def Collection.getClusterStatus (c : Collection) : Collection :=
  { parameters := c.parameters ++ ["action=CLUSTERSTATUS"] }

/-- `requestStatus(requestId)`. -/
def Collection.requestStatus (c : Collection) (requestId : String) : Collection :=
  { parameters := c.parameters
      ++ (["action=REQUESTSTATUS"] ++ pushTruthyStr "requestid" (some requestId)) }

/-- `listCollections()`. -/
def Collection.listCollections (c : Collection) : Collection :=
  { parameters := c.parameters ++ ["action=LIST"] }

/-- `ReplicaPropertyAddConfig`. -/
structure ReplicaPropertyAddConfig where
  collection : Option String := none
  shard : Option String := none
  replica : Option String := none
  property : Option String := none
  propertyValue : Option AdminValue := none
  shardUnique : Option Bool := none

/-- `addReplicaProperty(config)`. -/
def Collection.addReplicaProperty (c : Collection) (config : ReplicaPropertyAddConfig) :
    Collection :=
  { parameters := c.parameters
      ++ (["action=ADDREPLICAPROP"]
        ++ pushTruthyStr "collection" config.collection
        ++ pushTruthyStr "shard" config.shard
        ++ pushTruthyStr "replica" config.replica
        ++ pushTruthyStr "property" config.property
        ++ pushDefinedVal "property.value" config.propertyValue
        ++ pushDefinedBool "shardUnique" config.shardUnique) }

/-- `ReplicaPropertyDeleteConfig`. -/
structure ReplicaPropertyDeleteConfig where
  collection : Option String := none
  shard : Option String := none
  replica : Option String := none
  property : Option String := none

/-- `deleteReplicaProperty(config)`. -/
def Collection.deleteReplicaProperty (c : Collection) (config : ReplicaPropertyDeleteConfig) :
    Collection :=
  { parameters := c.parameters
      ++ (["action=DELETEREPLICAPROP"]
        ++ pushTruthyStr "collection" config.collection
        ++ pushTruthyStr "shard" config.shard
        ++ pushTruthyStr "replica" config.replica
        ++ pushTruthyStr "property" config.property) }

/-- `ShardBalanceConfig`. -/
structure ShardBalanceConfig where
  collection : Option String := none
  property : Option String := none
  onlyActiveNodes : Option Bool := none
  shardUnique : Option Bool := none

/-- `balanceProperty(config)`. -/
def Collection.balanceProperty (c : Collection) (config : ShardBalanceConfig) : Collection :=
  { parameters := c.parameters
      ++ (["action=BALANCESHARDUNIQUE"]
        ++ pushTruthyStr "collection" config.collection
        ++ pushTruthyStr "property" config.property
        ++ pushDefinedBool "onlyActiveNodes" config.onlyActiveNodes
        ++ pushDefinedBool "shardUnique" config.shardUnique) }

/-- `LeaderRebalanceConfig`. -/
structure LeaderRebalanceConfig where
  collection : Option String := none
  maxAtOnce : Option Int := none
  maxWaitSeconds : Option Int := none

/-- `rebalanceLeaders(config)`. -/
def Collection.rebalanceLeaders (c : Collection) (config : LeaderRebalanceConfig) : Collection :=
  { parameters := c.parameters
      ++ (["action=REBALANCELEADERS"]
        ++ pushTruthyStr "collection" config.collection
        ++ pushDefinedNum "maxAtOnce" config.maxAtOnce
        ++ pushDefinedNum "maxWaitSeconds" config.maxWaitSeconds) }

/-! ## Admin action builder, `addParameter` variant (the second `Collection`
class in the repository)

This variant funnels every push through a private `addParameter(key, value,
encode)` helper that skips `undefined`/`null` values, stringifies the value,
and URI-encodes it unless `encode` is `false` (used only for the `action`
tokens).  Each public method is a fixed sequence of `addParameter` calls.
-/

/-- The `addParameter`-variant `Collection` builder state. -/
structure CollectionV2 where
  parameters : List String := []

/-- A freshly constructed builder. -/
def CollectionV2.new : CollectionV2 := {}

/-- `toQueryString`. -/
def CollectionV2.toQueryString (c : CollectionV2) : String :=
  String.intercalate "&" c.parameters

/-- Finalization paired with the state it leaves behind (pure read). -/
def CollectionV2.finalize (c : CollectionV2) : String × CollectionV2 :=
  (c.toQueryString, c)

/-- `addParameter(key, value, encode = true)`. -/
def CollectionV2.addParameter (c : CollectionV2) (key : String) (value : Option AdminValue)
    (encode : Bool) : CollectionV2 :=
  match value with
  | none => c
  | some v =>
    { parameters := c.parameters
        ++ [key ++ "=" ++ (if encode then encodeURIComponent v.render else v.render)] }

/-- `addRawParameter(param)`. -/
def CollectionV2.addRawParameter (c : CollectionV2) (param : String) : CollectionV2 :=
  { parameters := c.parameters ++ [param] }

/-- A sequence of `addParameter` calls, in order. -/
def CollectionV2.addParams (c : CollectionV2) :
    List (String × Option AdminValue × Bool) → CollectionV2
  | [] => c
  | (k, v, e) :: rest => (c.addParameter k v e).addParams rest

/-- `Array.isArray(v) ? v.join(',') : v`. -/
def joinSum : String ⊕ List String → String
  | .inl s => s
  | .inr l => String.intercalate "," l

/-- `create(config)` in the `addParameter` variant. -/
def CollectionV2.create (c : CollectionV2) (config : CollectionCreateConfig) : CollectionV2 :=
  c.addParams
    [("action", some (.s "CREATE"), false),
     ("name", config.name.map .s, true),
     ("router.name", config.routerName.map .s, true),
     ("numShards", config.numShards.map .n, true),
     ("shards", config.shards.map (fun v => .s (joinSum v)), true),
     ("replicationFactor", config.replicationFactor.map .n, true),
     ("maxShardsPerNode", config.maxShardsPerNode.map .n, true),
     ("createNodeSet", config.createNodeSet.map (fun v => .s (joinSum v)), true),
     ("createNodeSet.shuffle", config.createNodeSetShuffle.map .b, true),
     ("collection.configName", config.collectionConfigName.map .s, true),
     ("router.field", config.routerField.map .s, true),
     ("autoAddReplicas", config.autoAddReplicas.map .b, true),
     ("async", config.async.map .s, true)]

/-- `reload(name)`. -/
def CollectionV2.reload (c : CollectionV2) (name : String) : CollectionV2 :=
  c.addParams [("action", some (.s "RELOAD"), false), ("name", some (.s name), true)]

/-- `splitShard(config)`. -/
def CollectionV2.splitShard (c : CollectionV2) (config : ShardSplitConfig) : CollectionV2 :=
  c.addParams
    [("action", some (.s "SPLITSHARD"), false),
     ("collection", config.collection.map .s, true),
     ("shard", config.shard.map .s, true),
     ("ranges", config.ranges.map (fun v => .s (joinSum v)), true),
     ("split.key", config.splitKey.map .s, true),
     ("async", config.async.map .s, true)]

/-- `createShard(config)`. -/
def CollectionV2.createShard (c : CollectionV2) (config : ShardConfig) : CollectionV2 :=
  c.addParams
    [("action", some (.s "CREATESHARD"), false),
     ("collection", config.collection.map .s, true),
     ("shard", config.shard.map .s, true)]

/-- `deleteShard(config)`. -/
def CollectionV2.deleteShard (c : CollectionV2) (config : ShardConfig) : CollectionV2 :=
  c.addParams
    [("action", some (.s "DELETESHARD"), false),
     ("collection", config.collection.map .s, true),
     ("shard", config.shard.map .s, true)]

/-- `createAlias(config)`. -/
def CollectionV2.createAlias (c : CollectionV2) (config : AliasConfig) : CollectionV2 :=
  c.addParams
    [("action", some (.s "CREATEALIAS"), false),
     ("name", config.name.map .s, true),
     ("collections", config.collections.map (fun v => .s (joinSum v)), true)]

/-- `deleteAlias(name)`. -/
def CollectionV2.deleteAlias (c : CollectionV2) (name : String) : CollectionV2 :=
  c.addParams [("action", some (.s "DELETEALIAS"), false), ("name", some (.s name), true)]

/-- `delete(name)`. -/
def CollectionV2.deleteCollection (c : CollectionV2) (name : String) : CollectionV2 :=
  c.addParams [("action", some (.s "DELETE"), false), ("name", some (.s name), true)]

/-- `deleteReplica(config)`. -/
def CollectionV2.deleteReplica (c : CollectionV2) (config : ReplicaDeleteConfig) :
    CollectionV2 :=
  c.addParams
    [("action", some (.s "DELETEREPLICA"), false),
     ("collection", config.collection.map .s, true),
     ("shard", config.shard.map .s, true),
     ("replica", config.replica.map .s, true),
     ("onlyIfDown", config.onlyIfDown.map .b, true)]

/-- `addReplica(config)`. -/
def CollectionV2.addReplica (c : CollectionV2) (config : ReplicaAddConfig) : CollectionV2 :=
  c.addParams
    [("action", some (.s "ADDREPLICA"), false),
     ("collection", config.collection.map .s, true),
     ("shard", config.shard.map .s, true),
     ("_route_", config.route.map .s, true),
     ("node", config.node.map .s, true),
     ("async", config.async.map .s, true)]

/-- `setClusterProperty(config)`. -/
def CollectionV2.setClusterProperty (c : CollectionV2) (config : ClusterPropertyConfig) :
    CollectionV2 :=
  c.addParams
    [("action", some (.s "CLUSTERPROP"), false),
     ("name", config.name.map .s, true),
     ("val", config.val, true)]

/-- `migrateDocuments(config)`. -/
def CollectionV2.migrateDocuments (c : CollectionV2) (config : MigrationConfig) :
    CollectionV2 :=
  c.addParams
    [("action", some (.s "MIGRATE"), false),
     ("collection", config.collection.map .s, true),
     ("target.collection", config.targetCollection.map .s, true),
     ("split.key", config.splitKey.map .s, true),
     ("forward.timeout", config.forwardTimeout.map .n, true),
     ("async", config.async.map .s, true)]

/-- `addRole(config)`. -/
def CollectionV2.addRole (c : CollectionV2) (config : ClusterRole) : CollectionV2 :=
  c.addParams
    [("action", some (.s "ADDROLE"), false),
     ("role", config.role.map .s, true),
     ("node", config.node.map .s, true)]

/-- `removeRole(config)`. -/
def CollectionV2.removeRole (c : CollectionV2) (config : ClusterRole) : CollectionV2 :=
  c.addParams
    [("action", some (.s "REMOVEROLE"), false),
     ("role", config.role.map .s, true),
     ("node", config.node.map .s, true)]

/-- `getOverseerStatus()`. -/
def CollectionV2.getOverseerStatus (c : CollectionV2) : CollectionV2 :=
  c.addParams [("action", some (.s "OVERSEERSTATUS"), false)]

/-- `getClusterStatus()`. -/
def CollectionV2.getClusterStatus (c : CollectionV2) : CollectionV2 :=
  c.addParams [("action", some (.s "CLUSTERSTATUS"), false)]

/-- `requestStatus(requestId)`. -/
def CollectionV2.requestStatus (c : CollectionV2) (requestId : String) : CollectionV2 :=
  c.addParams
    [("action", some (.s "REQUESTSTATUS"), false), ("requestid", some (.s requestId), true)]

/-- `listCollections()`. -/
def CollectionV2.listCollections (c : CollectionV2) : CollectionV2 :=
  c.addParams [("action", some (.s "LIST"), false)]

/-- `addReplicaProperty(config)`. -/
def CollectionV2.addReplicaProperty (c : CollectionV2) (config : ReplicaPropertyAddConfig) :
    CollectionV2 :=
  c.addParams
    [("action", some (.s "ADDREPLICAPROP"), false),
     ("collection", config.collection.map .s, true),
     ("shard", config.shard.map .s, true),
     ("replica", config.replica.map .s, true),
     ("property", config.property.map .s, true),
     ("property.value", config.propertyValue, true),
     ("shardUnique", config.shardUnique.map .b, true)]

/-- `deleteReplicaProperty(config)`. -/
def CollectionV2.deleteReplicaProperty (c : CollectionV2)
    (config : ReplicaPropertyDeleteConfig) : CollectionV2 :=
  c.addParams
    [("action", some (.s "DELETEREPLICAPROP"), false),
     ("collection", config.collection.map .s, true),
     ("shard", config.shard.map .s, true),
     ("replica", config.replica.map .s, true),
     ("property", config.property.map .s, true)]

/-- `balanceProperty(config)`. -/
def CollectionV2.balanceProperty (c : CollectionV2) (config : ShardBalanceConfig) :
    CollectionV2 :=
  c.addParams
    [("action", some (.s "BALANCESHARDUNIQUE"), false),
     ("collection", config.collection.map .s, true),
     ("property", config.property.map .s, true),
     ("onlyActiveNodes", config.onlyActiveNodes.map .b, true),
     ("shardUnique", config.shardUnique.map .b, true)]

/-- `rebalanceLeaders(config)`. -/
def CollectionV2.rebalanceLeaders (c : CollectionV2) (config : LeaderRebalanceConfig) :
    CollectionV2 :=
  c.addParams
    [("action", some (.s "REBALANCELEADERS"), false),
     ("collection", config.collection.map .s, true),
     ("maxAtOnce", config.maxAtOnce.map .n, true),
     ("maxWaitSeconds", config.maxWaitSeconds.map .n, true)]

/-! ## Structured-body query builder (the `Query` class accumulating a JSON
Request API body)

The body starts as `{ query: '*:*' }`; settings with a first-class slot
mutate the corresponding key, everything else goes through `setParam` into
the auxiliary `params` bag (created on first use).  `toObject` deletes the
`params` bag when it is present but empty and returns the body itself.
-/

/-- One assignment `obj[key] = value` on an insertion-ordered record: an
existing key keeps its position and gets the new value, a new key is
appended. -/
def setAssoc (l : List (String × JsValue)) (k : String) (v : JsValue) :
    List (String × JsValue) :=
  match l with
  | [] => [(k, v)]
  | (k2, v2) :: rest => if k2 = k then (k2, v) :: rest else (k2, v2) :: setAssoc rest k v

/-- The structured `Query` body: the fixed key set the class ever writes,
`none` marking keys not present. -/
structure JsonQuery where
  query : String := "*:*"
  filter : Option (List String) := none
  offset : Option Int := none
  limit : Option Int := none
  sort : Option String := none
  fields : Option String := none
  facet : Option JsValue := none
  params : Option (List (String × JsValue)) := none

/-- A freshly constructed structured `Query` (`body = { query: '*:*' }`). -/
def JsonQuery.new : JsonQuery := {}

/-- `setParam(key, value)`: create the `params` bag if absent, then assign. -/
def JsonQuery.setParam (q : JsonQuery) (key : String) (value : JsValue) : JsonQuery :=
  { q with params := some (setAssoc (q.params.getD []) key value) }

/-- `setQuery(query)`. -/
def JsonQuery.setQuery (q : JsonQuery) (query : String) : JsonQuery :=
  { q with query := query }

/-- `setOffset(offset)`. -/
def JsonQuery.setOffset (q : JsonQuery) (offset : Int) : JsonQuery :=
  { q with offset := some offset }

/-- `setLimit(limit)`. -/
def JsonQuery.setLimit (q : JsonQuery) (limit : Int) : JsonQuery :=
  { q with limit := some limit }

/-- `setSort(fields)`. -/
def JsonQuery.setSort (q : JsonQuery) (fields : List (String × SortDir)) : JsonQuery :=
  { q with sort := some (sortString fields) }

/-- `setResponseFields(fields)`. -/
def JsonQuery.setResponseFields (q : JsonQuery) (fields : String ⊕ List String) : JsonQuery :=
  let fieldString :=
    match fields with
    | .inl s => s
    | .inr l => String.intercalate "," l
  { q with fields := some fieldString }

/-- `addFilter(filter)`: create the filter list if absent and push. -/
def JsonQuery.addFilter (q : JsonQuery) (filter : String) : JsonQuery :=
  { q with filter := some (q.filter.getD [] ++ [filter]) }

/-- `addFilters(filters)`: create the filter list if absent and push all. -/
def JsonQuery.addFilters (q : JsonQuery) (filters : List String) : JsonQuery :=
  { q with filter := some (q.filter.getD [] ++ filters) }

/-- Structured `addRangeFilter`: normalize, render each range as in the flat
variant, and append the rendered strings as individual filter entries. -/
def JsonQuery.addRangeFilter (q : JsonQuery)
    (dateRange : DateRangeConfig ⊕ List DateRangeConfig) : JsonQuery :=
  let filters :=
    match dateRange with
    | .inl r => [rangeFilterString r]
    | .inr rs => rs.map rangeFilterString
  q.addFilters filters

/-- `setFacets(config)`: the facet tree is date-normalized and stored. -/
def JsonQuery.setFacets (q : JsonQuery) (config : JsValue) : JsonQuery :=
  { q with facet := some (convertDatesToISO config) }

/-- `toObject()`: delete a present-but-empty `params` bag, then return the
body; the pair is (returned body, state left behind). -/
def JsonQuery.toObject (q : JsonQuery) : JsonQuery × JsonQuery :=
  let q2 :=
    match q.params with
    | some [] => { q with params := none }
    | _ => q
  (q2, q2)

/-! ## Operation catalogs

One constructor per public mutating method of the flat query builder and of
the two admin builders, carrying the method's arguments.  `applyQueryOp`
returns the successor state together with a flag recording whether the call
threw (only the match-filter paths can throw, on an invalid date).
-/

/-- The fragments `addMatchFilter` pushes (none when the call throws). -/
def matchFilterFragments (field : String) (value : MatchValue) (complexPhrase : Bool) :
    List String :=
  match formatFilterValues value.toList with
  | none => []
  | some formatted =>
    let valueString :=
      if 1 < formatted.length then "(" ++ String.intercalate " OR " formatted ++ ")"
      else formatted.headD "undefined"
    let fieldRendered := if complexPhrase then complexPhraseMarker ++ field else field
    ["fq=" ++ encodeURIComponent (fieldRendered ++ ":" ++ valueString)]

theorem addMatchFilter_params (q : FlatQuery) (field : String) (value : MatchValue)
    (complexPhrase : Bool) :
    (q.addMatchFilter field value complexPhrase).1.parameters
      = q.parameters ++ matchFilterFragments field value complexPhrase := by
  unfold FlatQuery.addMatchFilter matchFilterFragments
  cases formatFilterValues value.toList <;> simp

/-- The fragments an `addFilters` loop pushes: one clause per tuple up to and
excluding the first throwing tuple. -/
def filtersFragments : List FilterSpec → List String
  | [] => []
  | f :: rest =>
    match formatFilterValues f.value.toList with
    | none => []
    | some _ => matchFilterFragments f.field f.value f.complexPhrase ++ filtersFragments rest

theorem addFiltersList_params : ∀ (fs : List FilterSpec) (q : FlatQuery),
    (FlatQuery.addFiltersList q fs).1.parameters = q.parameters ++ filtersFragments fs
  | [], q => by simp [FlatQuery.addFiltersList, filtersFragments]
  | f :: rest, q => by
    rw [FlatQuery.addFiltersList, filtersFragments]
    cases hv : formatFilterValues f.value.toList with
    | none => simp [FlatQuery.addMatchFilter, hv]
    | some ws =>
      simp only [FlatQuery.addMatchFilter, hv]
      rw [addFiltersList_params rest]
      simp [matchFilterFragments, hv, List.append_assoc]

/-- One call to a flat `Query` method. -/
inductive QueryOp where
  | addRawParameter (param : String)
  | setParserType (parserType : String)
  | setRequestHandler (handlerName : String)
  | setQuery (query : QueryArg) (complexPhrase : Bool)
  | setQueryOperator (op : QueryOperator)
  | setDefaultField (fieldName : String)
  | setOffset (offset : Int)
  | setLimit (limit : Int)
  | setCursor (cursor : String)
  | setSort (fields : List (String × SortDir))
  | addRangeFilter (dateRange : DateRangeConfig ⊕ List DateRangeConfig)
  | addJoinFilter (config : JoinConfig)
  | addMatchFilter (field : String) (value : MatchValue) (complexPhrase : Bool)
  | addFilters (filters : FilterSpec ⊕ List FilterSpec)
  | setResponseFields (fields : String ⊕ List String)
  | setTimeout (milliseconds : Int)
  | groupBy (fieldName : String)
  | setGrouping (config : GroupingConfig)
  | setFacets (config : FacetConfig)
  | setMoreLikeThis (config : MoreLikeThisConfig)
  | useDisMax
  | useExtendedDisMax
  | enableDebug
  | setQueryFields (fields : List (String × String))
  | setMinimumMatch (minimumMatch : String ⊕ Int)
  | setPhraseFields (fields : List (String × String))
  | setPhraseSlop (slop : Int)
  | setQuerySlop (slop : Int)
  | setTiebreaker (tiebreaker : Int)
  | setBoostQuery (boostQuery : List (String × String))
  | setBoostFunctions (functions : String)
  | setBoost (boost : String)
  | setHighlighting (config : HighlightConfig)
  | setTerms (config : TermsConfig)

/-- Apply one flat-builder method; the flag records a thrown exception. -/
def applyQueryOp : QueryOp → FlatQuery → FlatQuery × Bool
  | .addRawParameter p, q => (q.addRawParameter p, false)
  | .setParserType s, q => (q.setParserType s, false)
  | .setRequestHandler s, q => (q.setRequestHandler s, false)
  | .setQuery query c, q => (q.setQuery query c, false)
  | .setQueryOperator op, q => (q.setQueryOperator op, false)
  | .setDefaultField s, q => (q.setDefaultField s, false)
  | .setOffset v, q => (q.setOffset v, false)
  | .setLimit v, q => (q.setLimit v, false)
  | .setCursor s, q => (q.setCursor s, false)
  | .setSort fields, q => (q.setSort fields, false)
  | .addRangeFilter r, q => (q.addRangeFilter r, false)
  | .addJoinFilter cfg, q => (q.addJoinFilter cfg, false)
  | .addMatchFilter f v c, q => q.addMatchFilter f v c
  | .addFilters fs, q => q.addFilters fs
  | .setResponseFields fields, q => (q.setResponseFields fields, false)
  | .setTimeout v, q => (q.setTimeout v, false)
  | .groupBy s, q => (q.groupBy s, false)
  | .setGrouping cfg, q => (q.setGrouping cfg, false)
  | .setFacets cfg, q => (q.setFacets cfg, false)
  | .setMoreLikeThis cfg, q => (q.setMoreLikeThis cfg, false)
  | .useDisMax, q => (q.useDisMax, false)
  | .useExtendedDisMax, q => (q.useExtendedDisMax, false)
  | .enableDebug, q => (q.enableDebug, false)
  | .setQueryFields fields, q => (q.setQueryFields fields, false)
  | .setMinimumMatch v, q => (q.setMinimumMatch v, false)
  | .setPhraseFields fields, q => (q.setPhraseFields fields, false)
  | .setPhraseSlop v, q => (q.setPhraseSlop v, false)
  | .setQuerySlop v, q => (q.setQuerySlop v, false)
  | .setTiebreaker v, q => (q.setTiebreaker v, false)
  | .setBoostQuery fields, q => (q.setBoostQuery fields, false)
  | .setBoostFunctions s, q => (q.setBoostFunctions s, false)
  | .setBoost s, q => (q.setBoost s, false)
  | .setHighlighting cfg, q => (q.setHighlighting cfg, false)
  | .setTerms cfg, q => (q.setTerms cfg, false)

/-- Every flat-builder method appends a state-independent fragment list. -/
theorem queryOp_appends (op : QueryOp) :
    ∃ fs, ∀ q : FlatQuery, (applyQueryOp op q).1.parameters = q.parameters ++ fs := by
  cases op with
  | addMatchFilter f v c => exact ⟨_, fun q => addMatchFilter_params q f v c⟩
  | addFilters fs =>
    cases fs with
    | inl f => exact ⟨_, fun q => addFiltersList_params [f] q⟩
    | inr l => exact ⟨_, fun q => addFiltersList_params l q⟩
  | _ => exact ⟨_, fun q => rfl⟩

/-- One call to an admin `Collection` method (first variant). -/
inductive CollectionOp where
  | addRawParameter (param : String)
  | create (config : CollectionCreateConfig)
  | reload (name : String)
  | splitShard (config : ShardSplitConfig)
  | createShard (config : ShardConfig)
  | deleteShard (config : ShardConfig)
  | createAlias (config : AliasConfig)
  | deleteAlias (name : String)
  | deleteCollection (name : String)
  | deleteReplica (config : ReplicaDeleteConfig)
  | addReplica (config : ReplicaAddConfig)
  | setClusterProperty (config : ClusterPropertyConfig)
  | migrateDocuments (config : MigrationConfig)
  | addRole (config : ClusterRole)
  | removeRole (config : ClusterRole)
  | getOverseerStatus
  | getClusterStatus
  | requestStatus (requestId : String)
  | listCollections
  | addReplicaProperty (config : ReplicaPropertyAddConfig)
  | deleteReplicaProperty (config : ReplicaPropertyDeleteConfig)
  | balanceProperty (config : ShardBalanceConfig)
  | rebalanceLeaders (config : LeaderRebalanceConfig)

/-- Apply one admin-builder method (first variant; no method throws). -/
def applyCollectionOp : CollectionOp → Collection → Collection
  | .addRawParameter p, c => c.addRawParameter p
  | .create cfg, c => c.create cfg
  | .reload n, c => c.reload n
  | .splitShard cfg, c => c.splitShard cfg
  | .createShard cfg, c => c.createShard cfg
  | .deleteShard cfg, c => c.deleteShard cfg
  | .createAlias cfg, c => c.createAlias cfg
  | .deleteAlias n, c => c.deleteAlias n
  | .deleteCollection n, c => c.deleteCollection n
  | .deleteReplica cfg, c => c.deleteReplica cfg
  | .addReplica cfg, c => c.addReplica cfg
  | .setClusterProperty cfg, c => c.setClusterProperty cfg
  | .migrateDocuments cfg, c => c.migrateDocuments cfg
  | .addRole cfg, c => c.addRole cfg
  | .removeRole cfg, c => c.removeRole cfg
  | .getOverseerStatus, c => c.getOverseerStatus
  | .getClusterStatus, c => c.getClusterStatus
  | .requestStatus r, c => c.requestStatus r
  | .listCollections, c => c.listCollections
  | .addReplicaProperty cfg, c => c.addReplicaProperty cfg
  | .deleteReplicaProperty cfg, c => c.deleteReplicaProperty cfg
  | .balanceProperty cfg, c => c.balanceProperty cfg
  | .rebalanceLeaders cfg, c => c.rebalanceLeaders cfg

/-- Every admin-builder method appends a state-independent fragment list. -/
theorem collectionOp_appends (op : CollectionOp) :
    ∃ fs, ∀ c : Collection, (applyCollectionOp op c).parameters = c.parameters ++ fs := by
  cases op with
  | _ => exact ⟨_, fun c => rfl⟩

/-- The fragment one `addParameter` call pushes. -/
def paramFragment (key : String) (value : Option AdminValue) (encode : Bool) : List String :=
  match value with
  | none => []
  | some v => [key ++ "=" ++ (if encode then encodeURIComponent v.render else v.render)]

theorem addParameter_params (c : CollectionV2) (key : String) (value : Option AdminValue)
    (encode : Bool) :
    (c.addParameter key value encode).parameters
      = c.parameters ++ paramFragment key value encode := by
  cases value <;> simp [CollectionV2.addParameter, paramFragment]

/-- The fragments a sequence of `addParameter` calls pushes. -/
def paramsFragments : List (String × Option AdminValue × Bool) → List String
  | [] => []
  | (k, v, e) :: rest => paramFragment k v e ++ paramsFragments rest

theorem addParams_params : ∀ (ps : List (String × Option AdminValue × Bool))
    (c : CollectionV2),
    (c.addParams ps).parameters = c.parameters ++ paramsFragments ps
  | [], c => by simp [CollectionV2.addParams, paramsFragments]
  | (k, v, e) :: rest, c => by
    rw [CollectionV2.addParams, paramsFragments]
    rw [addParams_params rest, addParameter_params]
    simp [List.append_assoc]

/-- One call to an admin `Collection` method (`addParameter` variant),
including direct use of the `addParameter` helper itself. -/
inductive CollectionV2Op where
  | addRawParameter (param : String)
  | addParameter (key : String) (value : Option AdminValue) (encode : Bool)
  | create (config : CollectionCreateConfig)
  | reload (name : String)
  | splitShard (config : ShardSplitConfig)
  | createShard (config : ShardConfig)
  | deleteShard (config : ShardConfig)
  | createAlias (config : AliasConfig)
  | deleteAlias (name : String)
  | deleteCollection (name : String)
  | deleteReplica (config : ReplicaDeleteConfig)
  | addReplica (config : ReplicaAddConfig)
  | setClusterProperty (config : ClusterPropertyConfig)
  | migrateDocuments (config : MigrationConfig)
  | addRole (config : ClusterRole)
  | removeRole (config : ClusterRole)
  | getOverseerStatus
  | getClusterStatus
  | requestStatus (requestId : String)
  | listCollections
  | addReplicaProperty (config : ReplicaPropertyAddConfig)
  | deleteReplicaProperty (config : ReplicaPropertyDeleteConfig)
  | balanceProperty (config : ShardBalanceConfig)
  | rebalanceLeaders (config : LeaderRebalanceConfig)

/-- Apply one admin-builder method (`addParameter` variant). -/
def applyCollectionV2Op : CollectionV2Op → CollectionV2 → CollectionV2
  | .addRawParameter p, c => c.addRawParameter p
  | .addParameter k v e, c => c.addParameter k v e
  | .create cfg, c => c.create cfg
  | .reload n, c => c.reload n
  | .splitShard cfg, c => c.splitShard cfg
  | .createShard cfg, c => c.createShard cfg
  | .deleteShard cfg, c => c.deleteShard cfg
  | .createAlias cfg, c => c.createAlias cfg
  | .deleteAlias n, c => c.deleteAlias n
  | .deleteCollection n, c => c.deleteCollection n
  | .deleteReplica cfg, c => c.deleteReplica cfg
  | .addReplica cfg, c => c.addReplica cfg
  | .setClusterProperty cfg, c => c.setClusterProperty cfg
  | .migrateDocuments cfg, c => c.migrateDocuments cfg
  | .addRole cfg, c => c.addRole cfg
  | .removeRole cfg, c => c.removeRole cfg
  | .getOverseerStatus, c => c.getOverseerStatus
  | .getClusterStatus, c => c.getClusterStatus
  | .requestStatus r, c => c.requestStatus r
  | .listCollections, c => c.listCollections
  | .addReplicaProperty cfg, c => c.addReplicaProperty cfg
  | .deleteReplicaProperty cfg, c => c.deleteReplicaProperty cfg
  | .balanceProperty cfg, c => c.balanceProperty cfg
  | .rebalanceLeaders cfg, c => c.rebalanceLeaders cfg

/-- Every method of the `addParameter` variant appends a state-independent
fragment list. -/
theorem collectionV2Op_appends (op : CollectionV2Op) :
    ∃ fs, ∀ c : CollectionV2, (applyCollectionV2Op op c).parameters = c.parameters ++ fs := by
  cases op with
  | addRawParameter p => exact ⟨_, fun c => rfl⟩
  | addParameter k v e => exact ⟨_, fun c => addParameter_params c k v e⟩
  | getOverseerStatus => exact ⟨_, fun c => addParams_params _ c⟩
  | getClusterStatus => exact ⟨_, fun c => addParams_params _ c⟩
  | listCollections => exact ⟨_, fun c => addParams_params _ c⟩
  | reload n => exact ⟨_, fun c => addParams_params _ c⟩
  | deleteAlias n => exact ⟨_, fun c => addParams_params _ c⟩
  | deleteCollection n => exact ⟨_, fun c => addParams_params _ c⟩
  | requestStatus r => exact ⟨_, fun c => addParams_params _ c⟩
  | create cfg => exact ⟨_, fun c => addParams_params _ c⟩
  | splitShard cfg => exact ⟨_, fun c => addParams_params _ c⟩
  | createShard cfg => exact ⟨_, fun c => addParams_params _ c⟩
  | deleteShard cfg => exact ⟨_, fun c => addParams_params _ c⟩
  | createAlias cfg => exact ⟨_, fun c => addParams_params _ c⟩
  | deleteReplica cfg => exact ⟨_, fun c => addParams_params _ c⟩
  | addReplica cfg => exact ⟨_, fun c => addParams_params _ c⟩
  | setClusterProperty cfg => exact ⟨_, fun c => addParams_params _ c⟩
  | migrateDocuments cfg => exact ⟨_, fun c => addParams_params _ c⟩
  | addRole cfg => exact ⟨_, fun c => addParams_params _ c⟩
  | removeRole cfg => exact ⟨_, fun c => addParams_params _ c⟩
  | addReplicaProperty cfg => exact ⟨_, fun c => addParams_params _ c⟩
  | deleteReplicaProperty cfg => exact ⟨_, fun c => addParams_params _ c⟩
  | balanceProperty cfg => exact ⟨_, fun c => addParams_params _ c⟩
  | rebalanceLeaders cfg => exact ⟨_, fun c => addParams_params _ c⟩

/-! ## Claim theorems -/

/-- C1: `escapeLuceneChars` returns every non-string input unchanged, and on
a string returns the new string in which every occurrence of each reserved
character `+ - ! ( ) { } [ ] ^ " ~ * ? : \ /` is prefixed with a backslash
and the operator sequences `&&` and `||` are escaped to `\&\&` and `\|\|`
(the single-scan `luceneEscapeSpec` transformation); it is a pure total
function. -/
theorem C1_escapeLuceneChars_contract :
    (∀ s : String,
      escapeLuceneCharsVal (.str s) = .str (String.mk (luceneEscapeSpec s.data)))
    ∧ (∀ n : Int, escapeLuceneCharsVal (.num n) = .num n)
    ∧ (∀ b : Bool, escapeLuceneCharsVal (.bool b) = .bool b)
    ∧ escapeLuceneCharsVal .null = .null
    ∧ escapeLuceneCharsVal .undefined = .undefined
    ∧ (∀ t, escapeLuceneCharsVal (.date t) = .date t)
    ∧ (∀ xs, escapeLuceneCharsVal (.arr xs) = .arr xs)
    ∧ (∀ o, escapeLuceneCharsVal (.obj o) = .obj o) := by
  refine ⟨fun s => ?_, fun n => rfl, fun b => rfl, rfl, rfl, fun t => rfl, fun xs => rfl,
    fun o => rfl⟩
  show JsValue.str (escapeLuceneChars s) = JsValue.str (String.mk (luceneEscapeSpec s.data))
  rw [escapeLuceneChars, escape_passes_eq_spec]

/-- C2: for every string containing a reserved character, escaping with
`escapeLuceneChars` and then removing the backslashes the escaping
introduced (`unescapeLucene`) reconstructs the original string. -/
theorem C2_escape_roundtrip (s : String)
    (h : ∃ c ∈ s.data, isLuceneSpecial c = true) :
    unescapeLucene (escapeLuceneChars s).data = s.data := by
  have hdata : (escapeLuceneChars s).data = luceneEscapeSpec s.data := by
    rw [escapeLuceneChars, escape_passes_eq_spec]
  rw [hdata]
  exact unescape_spec_roundtrip s.data

/-- Witness for C2 at the concrete input `"a:b"`. -/
theorem C2_escape_roundtrip_witness :
    (∃ c ∈ "a:b".data, isLuceneSpecial c = true)
    ∧ unescapeLucene (escapeLuceneChars "a:b").data = "a:b".data :=
  ⟨by decide, C2_escape_roundtrip "a:b" (by decide)⟩

/-- C3: `convertDatesToISO` maps arrays element-wise into a new array, copies
objects key by key (preserving the key sequence) with recursively converted
values, turns a valid date into its UTC ISO-8601 string and an invalid date
into `null`, and returns every other scalar unchanged; as a pure function it
leaves its input untouched. -/
theorem C3_convertDatesToISO_contract :
    (∀ xs : JsArray, convertDatesToISO (.arr xs) = .arr (xs.map convertDatesToISO))
    ∧ (∀ o : JsObject, convertDatesToISO (.obj o) = .obj (convertDatesObject o))
    ∧ (∀ (k : String) (v : JsValue) (o : JsObject),
      convertDatesObject (.cons k v o) = .cons k (convertDatesToISO v) (convertDatesObject o))
    ∧ (∀ o : JsObject, (convertDatesObject o).keys = o.keys)
    ∧ (∀ t : Int, convertDatesToISO (.date (some t)) = .str (toISOString t))
    ∧ convertDatesToISO (.date none) = .null
    ∧ (∀ s, convertDatesToISO (.str s) = .str s)
    ∧ (∀ n, convertDatesToISO (.num n) = .num n)
    ∧ (∀ b, convertDatesToISO (.bool b) = .bool b)
    ∧ convertDatesToISO .null = .null
    ∧ convertDatesToISO .undefined = .undefined := by
  refine ⟨fun xs => ?_, fun o => ?_, fun k v o => ?_, convertDatesObject_keys, fun t => ?_,
    ?_, fun s => ?_, fun n => ?_, fun b => ?_, ?_, ?_⟩
  · simp only [convertDatesToISO, convertDatesArray_eq_map]
  · simp only [convertDatesToISO]
  · simp only [convertDatesObject]
  · simp only [convertDatesToISO, formatDateToISO]
  · simp only [convertDatesToISO, formatDateToISO]
  · simp only [convertDatesToISO]
  · simp only [convertDatesToISO]
  · simp only [convertDatesToISO]
  · simp only [convertDatesToISO]
  · simp only [convertDatesToISO]

/-- C4: `convertDatesToISO` is idempotent on every nested value (and on the
array and object spines it recurses through). -/
theorem C4_convertDatesToISO_idempotent :
    (∀ v : JsValue, convertDatesToISO (convertDatesToISO v) = convertDatesToISO v)
    ∧ (∀ xs : JsArray, convertDatesArray (convertDatesArray xs) = convertDatesArray xs)
    ∧ (∀ o : JsObject, convertDatesObject (convertDatesObject o) = convertDatesObject o) :=
  ⟨convertDatesToISO_idem, convertDatesArray_idem, convertDatesObject_idem⟩

/-- C5 counterexample: finalizing a freshly constructed flat-parameter
`Query` yields the empty parameter string with an empty fragment list — it
contains no `q` fragment at all, hence not the "match all documents" main
query the claim asserts for flat-parameter finalization. -/
theorem C5_flat_default_counterexample :
    FlatQuery.render FlatQuery.new = ""
    ∧ FlatQuery.new.parameters = []
    ∧ ¬ ∃ p ∈ FlatQuery.new.parameters, "q=".isPrefixOf p := by
  refine ⟨rfl, rfl, ?_⟩
  rintro ⟨p, hp, -⟩
  exact absurd hp (List.not_mem_nil p)

/-- C5 (amended): a freshly constructed structured builder finalizes to the
match-all body `{query: '*:*'}` with no filter entries and no params bag,
while a freshly constructed flat builder finalizes to the empty parameter
string with no fragments (and so no filter fragments, but also no main-query
fragment — its match-all default is left to the caller or server). -/
theorem C5_fresh_query_defaults :
    (JsonQuery.toObject JsonQuery.new).1.query = "*:*"
    ∧ (JsonQuery.toObject JsonQuery.new).1.filter = none
    ∧ (JsonQuery.toObject JsonQuery.new).1.params = none
    ∧ FlatQuery.new.parameters = []
    ∧ FlatQuery.render FlatQuery.new = "" :=
  ⟨rfl, rfl, rfl, rfl, rfl⟩

theorem matchFilterFragments_of_valid (field : String) (value : MatchValue)
    (complexPhrase : Bool) (ws : List String)
    (h : formatFilterValues value.toList = some ws) :
    matchFilterFragments field value complexPhrase
      = ["fq=" ++ encodeURIComponent
            ((if complexPhrase then complexPhraseMarker ++ field else field) ++ ":"
              ++ (if 1 < ws.length then "(" ++ String.intercalate " OR " ws ++ ")"
                  else ws.headD "undefined"))] := by
  unfold matchFilterFragments
  rw [h]

theorem filtersFragments_of_valid : ∀ fs : List FilterSpec,
    (∀ f ∈ fs, (formatFilterValues f.value.toList).isSome = true) →
    filtersFragments fs
      = concatMap (fun f => matchFilterFragments f.field f.value f.complexPhrase) fs
  | [], _ => rfl
  | f :: rest, h => by
    rw [filtersFragments, concatMap]
    cases hv : formatFilterValues f.value.toList with
    | none =>
      have := h f (List.mem_cons_self f rest)
      rw [hv] at this
      exact absurd this (by decide)
    | some ws =>
      show matchFilterFragments f.field f.value f.complexPhrase ++ filtersFragments rest = _
      rw [filtersFragments_of_valid rest (fun g hg => h g (List.mem_cons_of_mem f hg))]

/-- C6: `addMatchFilter` appends exactly one `fq` fragment whose value joins
the value array with ` OR ` (parenthesized when it has more than one
element), and `addFilters` gives each tuple of its list its own independent
single `fq` fragment, in order. -/
theorem C6_filters_or_and :
    (∀ (q : FlatQuery) (field : String) (vs : List FilterValue) (ws : List String)
        (complexPhrase : Bool),
      formatFilterValues vs = some ws →
      (q.addMatchFilter field (.multi vs) complexPhrase).1.parameters
        = q.parameters
          ++ ["fq=" ++ encodeURIComponent
                ((if complexPhrase then complexPhraseMarker ++ field else field) ++ ":"
                  ++ (if 1 < ws.length then "(" ++ String.intercalate " OR " ws ++ ")"
                      else ws.headD "undefined"))]
        ∧ (q.addMatchFilter field (.multi vs) complexPhrase).2 = false)
    ∧ (∀ (q : FlatQuery) (fs : List FilterSpec),
      (∀ f ∈ fs, (formatFilterValues f.value.toList).isSome = true) →
      (q.addFilters (.inr fs)).1.parameters
        = q.parameters
          ++ concatMap (fun f => matchFilterFragments f.field f.value f.complexPhrase) fs
        ∧ ∀ f ∈ fs, (matchFilterFragments f.field f.value f.complexPhrase).length = 1)
    ∧ (∀ (q : FlatQuery) (f : FilterSpec), q.addFilters (.inl f) = q.addFilters (.inr [f])) := by
  refine ⟨fun q field vs ws complexPhrase h => ⟨?_, ?_⟩, fun q fs h => ⟨?_, ?_⟩,
    fun q f => rfl⟩
  · rw [addMatchFilter_params,
      matchFilterFragments_of_valid field (.multi vs) complexPhrase ws h]
  · simp only [FlatQuery.addMatchFilter, MatchValue.toList, h]
  · show (FlatQuery.addFiltersList q fs).1.parameters = _
    rw [addFiltersList_params, filtersFragments_of_valid fs h]
  · intro f hf
    have := h f hf
    cases hv : formatFilterValues f.value.toList with
    | none => rw [hv] at this; exact absurd this (by decide)
    | some ws =>
      rw [matchFilterFragments_of_valid f.field f.value f.complexPhrase ws hv]
      rfl

/-- Witness for C6: two concrete string values for one field become one
parenthesized OR clause, and two concrete tuples become two fragments. -/
theorem C6_filters_or_and_witness :
    (FlatQuery.new.addMatchFilter "age" (.multi [.s "3", .s "5"]) false).1.parameters
      = ["fq=age%3A(3%20OR%205)"]
    ∧ (FlatQuery.new.addFilters (.inr
        [⟨"age", .multi [.s "3"], false⟩, ⟨"name", .multi [.s "Ruri"], false⟩])).1.parameters
      = ["fq=age%3A3", "fq=name%3ARuri"] := by
  constructor
  · have h := (C6_filters_or_and.1 FlatQuery.new "age" [.s "3", .s "5"] ["3", "5"] false
      (by decide)).1
    rw [h]
    decide
  · have h := (C6_filters_or_and.2.1 FlatQuery.new
      [⟨"age", .multi [.s "3"], false⟩, ⟨"name", .multi [.s "Ruri"], false⟩]
      (by decide)).1
    rw [h]
    decide

/-- C7: `addRangeFilter` renders each range as `field:[start TO end]` with
`*` for an unspecified, `null`, or invalid-date bound (valid dates become
their ISO strings), accepts a single range as the one-element list, joins a
list of ranges with ` AND ` into a single `fq` fragment in the flat variant,
and appends the rendered ranges as individual (server-AND-combined) filter
entries in the structured variant. -/
theorem C7_range_filter_contract :
    (∀ (q : FlatQuery) (rs : List DateRangeConfig),
      (q.addRangeFilter (.inr rs)).parameters
        = q.parameters
          ++ ["fq=" ++ encodeURIComponent
                (String.intercalate " AND " (rs.map rangeFilterString))])
    ∧ (∀ (q : FlatQuery) (r : DateRangeConfig),
      q.addRangeFilter (.inl r) = q.addRangeFilter (.inr [r]))
    ∧ (∀ r : DateRangeConfig,
      rangeFilterString r
        = r.field ++ ":[" ++ serializeRangeBound (convertRangeBound r.start) ++ " TO "
          ++ serializeRangeBound (convertRangeBound r.stop) ++ "]")
    ∧ serializeRangeBound (convertRangeBound .undefined) = "*"
    ∧ serializeRangeBound (convertRangeBound .null) = "*"
    ∧ serializeRangeBound (convertRangeBound (.d none)) = "*"
    ∧ (∀ t : Int, serializeRangeBound (convertRangeBound (.d (some t))) = toISOString t)
    ∧ (∀ v : String, serializeRangeBound (convertRangeBound (.s v)) = v)
    ∧ (∀ v : Int, serializeRangeBound (convertRangeBound (.n v)) = toString v)
    ∧ (∀ (jq : JsonQuery) (rs : List DateRangeConfig),
      (jq.addRangeFilter (.inr rs)).filter
        = some (jq.filter.getD [] ++ rs.map rangeFilterString))
    ∧ (∀ (jq : JsonQuery) (r : DateRangeConfig),
      jq.addRangeFilter (.inl r) = jq.addRangeFilter (.inr [r])) := by
  exact ⟨fun q rs => rfl, fun q r => rfl, fun r => rfl, rfl, rfl, rfl, fun t => rfl,
    fun v => rfl, fun v => rfl, fun jq rs => rfl, fun jq r => rfl⟩

/-- C8: `create` with only `name: "coll1"` and `numShards: 2` produces, in
both admin-builder variants, exactly the fragments `action=CREATE`,
`name=coll1` and `numShards=2`, and the joined string contains no fragment
for any omitted optional field (in particular none starting with
`replicationFactor`). -/
theorem C8_create_coll1_params :
    (Collection.new.create { name := some "coll1", numShards := some 2 }).parameters
      = ["action=CREATE", "name=coll1", "numShards=2"]
    ∧ (Collection.new.create { name := some "coll1", numShards := some 2 }).toQueryString
      = "action=CREATE&name=coll1&numShards=2"
    ∧ (CollectionV2.new.create { name := some "coll1", numShards := some 2 }).parameters
      = ["action=CREATE", "name=coll1", "numShards=2"]
    ∧ (CollectionV2.new.create { name := some "coll1", numShards := some 2 }).toQueryString
      = "action=CREATE&name=coll1&numShards=2"
    ∧ (∀ p ∈ (Collection.new.create
          { name := some "coll1", numShards := some 2 }).parameters,
        ¬ p.startsWith "replicationFactor") := by
  refine ⟨by decide, by decide, by decide, by decide, by decide⟩

theorem jsonToObject_stable (jq : JsonQuery) :
    JsonQuery.toObject (JsonQuery.toObject jq).2 = JsonQuery.toObject jq := by
  unfold JsonQuery.toObject
  cases h : jq.params with
  | none => simp [h]
  | some l =>
    cases l with
    | nil => simp [h]
    | cons x xs => simp [h]

/-- C9: finalizing twice with no intervening mutation yields identical
output for all three finalizers.  The flat `toString` and `toQueryString`
are pure reads (they return the state unchanged); the structured `toObject`
only ever drops a present-but-empty `params` bag, a cleanup that is
invariant under a second call, so the returned body is identical both
times. -/
theorem C9_finalize_idempotent :
    (∀ jq : JsonQuery,
      (JsonQuery.toObject (JsonQuery.toObject jq).2).1 = (JsonQuery.toObject jq).1
      ∧ (JsonQuery.toObject (JsonQuery.toObject jq).2).2 = (JsonQuery.toObject jq).2)
    ∧ (∀ q : FlatQuery,
      (FlatQuery.finalize (FlatQuery.finalize q).2).1 = (FlatQuery.finalize q).1
      ∧ (FlatQuery.finalize q).2 = q)
    ∧ (∀ c : Collection,
      (Collection.finalize (Collection.finalize c).2).1 = (Collection.finalize c).1
      ∧ (Collection.finalize c).2 = c)
    ∧ (∀ c : CollectionV2,
      (CollectionV2.finalize (CollectionV2.finalize c).2).1 = (CollectionV2.finalize c).1
      ∧ (CollectionV2.finalize c).2 = c) := by
  refine ⟨fun jq => ⟨?_, ?_⟩, fun q => ⟨rfl, rfl⟩, fun c => ⟨rfl, rfl⟩, fun c => ⟨rfl, rfl⟩⟩
  · rw [jsonToObject_stable]
  · rw [jsonToObject_stable]

/-- C10: every operation of the flat query builder and of both admin
builders only appends fragments: the new parameter list is the old one
followed by a fragment list determined by the operation's arguments alone
(so the old list is a prefix and nothing is rewritten), and repeating the
same call appends the same fragments a second time instead of replacing the
first. -/
theorem C10_builders_append_only :
    (∀ (op : QueryOp) (q : FlatQuery), ∃ fs,
      (applyQueryOp op q).1.parameters = q.parameters ++ fs
      ∧ q.parameters <+: (applyQueryOp op q).1.parameters
      ∧ (applyQueryOp op (applyQueryOp op q).1).1.parameters = q.parameters ++ fs ++ fs)
    ∧ (∀ (op : CollectionOp) (c : Collection), ∃ fs,
      (applyCollectionOp op c).parameters = c.parameters ++ fs
      ∧ c.parameters <+: (applyCollectionOp op c).parameters
      ∧ (applyCollectionOp op (applyCollectionOp op c)).parameters
          = c.parameters ++ fs ++ fs)
    ∧ (∀ (op : CollectionV2Op) (c : CollectionV2), ∃ fs,
      (applyCollectionV2Op op c).parameters = c.parameters ++ fs
      ∧ c.parameters <+: (applyCollectionV2Op op c).parameters
      ∧ (applyCollectionV2Op op (applyCollectionV2Op op c)).parameters
          = c.parameters ++ fs ++ fs) := by
  refine ⟨fun op q => ?_, fun op c => ?_, fun op c => ?_⟩
  · obtain ⟨fs, hfs⟩ := queryOp_appends op
    refine ⟨fs, hfs q, ?_, ?_⟩
    · rw [hfs q]
      exact List.prefix_append _ _
    · rw [hfs ((applyQueryOp op q).1), hfs q]
  · obtain ⟨fs, hfs⟩ := collectionOp_appends op
    refine ⟨fs, hfs c, ?_, ?_⟩
    · rw [hfs c]
      exact List.prefix_append _ _
    · rw [hfs (applyCollectionOp op c), hfs c]
  · obtain ⟨fs, hfs⟩ := collectionV2Op_appends op
    refine ⟨fs, hfs c, ?_, ?_⟩
    · rw [hfs c]
      exact List.prefix_append _ _
    · rw [hfs (applyCollectionV2Op op c), hfs c]

/-- Witness for C8's universally quantified conjunct at a concrete
fragment. -/
theorem C8_create_coll1_params_witness :
    ("action=CREATE" ∈ (Collection.new.create
        { name := some "coll1", numShards := some 2 }).parameters)
    ∧ ¬ ("action=CREATE").startsWith "replicationFactor" :=
  ⟨by decide, C8_create_coll1_params.2.2.2.2 "action=CREATE" (by decide)⟩
